import Mathlib

/-!
Verification of the Ninisina consultation-processing backend (server.js).

The development shallowly embeds the JavaScript source: loosely-typed JSON
payloads become the inductive type `JSVal` (objects are association lists in
insertion order; arrays carry both their elements and, as in JavaScript,
possible named expando properties), property reads return `Option JSVal`
(`none` models `undefined`), and sloppy-mode property writes on primitives are
silent no-ops.  Each stage of the pipeline is translated directly from the
corresponding function of the source, with external gateway outcomes passed as
explicit `Except` parameters.
-/

namespace Ninisina

/-- Model of a JavaScript runtime value as produced by JSON.parse and mutated
by the backend: `vnull` is null, `varr` carries the array elements together
with named expando properties (assignable in JavaScript), `vobj` is a plain
object as an association list in insertion order. -/
inductive JSVal where
  | vnull : JSVal
  | vbool : Bool → JSVal
  | vnum : Int → JSVal
  | vstr : String → JSVal
  | varr : List JSVal → List (String × JSVal) → JSVal
  | vobj : List (String × JSVal) → JSVal

open JSVal

/-- Truthiness of a JavaScript value: null, false, 0 and the empty string are
falsy; arrays and objects are always truthy. -/
def truthy : JSVal → Bool
  | vnull => false
  | vbool b => b
  | vnum n => n ≠ 0
  | vstr s => s ≠ ""
  | varr _ _ => true
  | vobj _ => true

/-- Truthiness of a possibly-undefined value (`none` models undefined). -/
def truthyOpt : Option JSVal → Bool
  | none => false
  | some v => truthy v

/-- Lookup of the first binding of a key in an association list, as a
JavaScript property read on an object (objects never hold duplicate keys, so
first-binding lookup agrees with the runtime). -/
def alookup : List (String × JSVal) → String → Option JSVal
  | [], _ => none
  | p :: rest, k => if p.1 = k then some p.2 else alookup rest k

/-- Update of the first binding of a key, appending a fresh binding at the end
when the key is absent: JavaScript property assignment keeps the original slot
of an existing key and appends new keys in insertion order. -/
def aset : List (String × JSVal) → String → JSVal → List (String × JSVal)
  | [], k, v => [(k, v)]
  | p :: rest, k, v => if p.1 = k then (k, v) :: rest else p :: aset rest k v

/-- Property read `a[k]`: `none` models undefined.  Reads on primitives yield
undefined; reads of named keys on arrays consult the expando properties. -/
def getField : JSVal → String → Option JSVal
  | vobj fields, k => alookup fields k
  | varr _ props, k => alookup props k
  | _, _ => none

/-- Property write `a[k] = v` under sloppy mode: a no-op on primitives and
null (the call sites guard the null case), an expando write on arrays. -/
def setField : JSVal → String → JSVal → JSVal
  | vobj fields, k, v => vobj (aset fields k v)
  | varr es props, k, v => varr es (aset props k v)
  | x, _, _ => x

/-- Two-step property read `a[k1][k2]`, undefined-propagating. -/
def getField2 (a : JSVal) (k1 k2 : String) : Option JSVal :=
  match getField a k1 with
  | some m => getField m k2
  | none => none

/-- Test for `typeof v === 'object'`: true of null, arrays and objects. -/
def typeofObject : JSVal → Bool
  | vnull => true
  | varr _ _ => true
  | vobj _ => true
  | _ => false

/-- Test for `Array.isArray`. -/
def isArray : JSVal → Bool
  | varr _ _ => true
  | _ => false

/-- Test for `Array.isArray` on a possibly-undefined value. -/
def isArrayOpt : Option JSVal → Bool
  | some v => isArray v
  | none => false

/-- Containers are the values on which property assignment is effective. -/
def isContainer : JSVal → Bool
  | varr _ _ => true
  | vobj _ => true
  | _ => false

/-- Hexadecimal digit used by the JSON control-character escape. -/
def hexDigit (n : Nat) : String :=
  if n = 0 then "0" else if n = 1 then "1" else if n = 2 then "2"
  else if n = 3 then "3" else if n = 4 then "4" else if n = 5 then "5"
  else if n = 6 then "6" else if n = 7 then "7" else if n = 8 then "8"
  else if n = 9 then "9" else if n = 10 then "a" else if n = 11 then "b"
  else if n = 12 then "c" else if n = 13 then "d" else if n = 14 then "e"
  else "f"

/-- JSON escape of a single character, per JSON.stringify. -/
def escapeJsonChar (c : Char) : String :=
  if c = '"' then "\\\""
  else if c = '\\' then "\\\\"
  else if c = '\n' then "\\n"
  else if c = '\r' then "\\r"
  else if c = '\t' then "\\t"
  else if c = '\x08' then "\\b"
  else if c = '\x0c' then "\\f"
  else if c.toNat < 32 then "\\u00" ++ hexDigit (c.toNat / 16) ++ hexDigit (c.toNat % 16)
  else String.singleton c

/-- JSON string literal with escaping, per JSON.stringify. -/
def escapeJson (s : String) : String :=
  "\"" ++ String.join (s.data.map escapeJsonChar) ++ "\""

mutual

/-- Model of JSON.stringify on JSON trees (expando properties of arrays are
not serialized, matching JavaScript). -/
def jsonStringify : JSVal → String
  | vnull => "null"
  | vbool true => "true"
  | vbool false => "false"
  | vnum n => toString n
  | vstr s => escapeJson s
  | varr es _ => "[" ++ stringifyElems es ++ "]"
  | vobj fs => "\x7b" ++ stringifyFields fs ++ "\x7d"

/-- Comma-separated serialization of array elements. -/
def stringifyElems : List JSVal → String
  | [] => ""
  | [x] => jsonStringify x
  | x :: y :: rest => jsonStringify x ++ "," ++ stringifyElems (y :: rest)

/-- Comma-separated serialization of object fields. -/
def stringifyFields : List (String × JSVal) → String
  | [] => ""
  | [(k, v)] => escapeJson k ++ ":" ++ jsonStringify v
  | (k, v) :: q :: rest => escapeJson k ++ ":" ++ jsonStringify v ++ "," ++ stringifyFields (q :: rest)

end

mutual

/-- Model of JavaScript string coercion `String(v)` as used by template
literals: arrays join their elements with commas, objects print as
[object Object]. -/
def jsToString : JSVal → String
  | vnull => "null"
  | vbool true => "true"
  | vbool false => "false"
  | vnum n => toString n
  | vstr s => s
  | varr es _ => joinElems es
  | vobj _ => "[object Object]"

/-- Array.prototype.join with separator comma: null elements join as the
empty string. -/
def joinElems : List JSVal → String
  | [] => ""
  | [vnull] => ""
  | [x] => jsToString x
  | vnull :: y :: rest => "," ++ joinElems (y :: rest)
  | x :: y :: rest => jsToString x ++ "," ++ joinElems (y :: rest)

end

/-! ## Sanitizer (sanitizeAnalysisData) -/

/-- Default clinicalDecisionSupport object installed by the sanitizer. -/
def defaultCDS : JSVal :=
  vobj [("guidelines", vstr ""), ("evidenceLevel", vstr ""),
        ("recommendedActions", varr [] [])]

/-- Template interpolation of a plan sub-field with the or-default pattern
`value || 'Not specified'`. -/
def orNotSpecified : Option JSVal → String
  | some v => if truthy v then jsToString v else "Not specified"
  | none => "Not specified"

/-- Replacement value for an object-typed plan: the three-line formatted
string when immediateTreatment is truthy, the JSON text of the plan
otherwise. -/
def flattenPlanValue (plan : JSVal) : JSVal :=
  match getField plan "immediateTreatment" with
  | some it =>
      if truthy it then
        vstr ("Immediate Treatment: " ++ jsToString it ++ "\n"
          ++ "Follow-up Treatment: " ++ orNotSpecified (getField plan "followUpTreatment") ++ "\n"
          ++ "Additional Care: " ++ orNotSpecified (getField plan "additionalCare"))
      else vstr (jsonStringify plan)
  | none => vstr (jsonStringify plan)

/-- First block of sanitizeAnalysisData: when clinicalSummary and its plan are
truthy and the plan is object-typed, replace the plan in place. -/
def flattenPlanStep (a : JSVal) : JSVal :=
  match getField a "clinicalSummary" with
  | none => a
  | some cs =>
      if truthy cs then
        match getField cs "plan" with
        | none => a
        | some plan =>
            if truthy plan && typeofObject plan then
              setField a "clinicalSummary" (setField cs "plan" (flattenPlanValue plan))
            else a
      else a

/-- One `if (!Array.isArray(analysis.medicalInsights.key)) ... = []` statement
of the sanitizer. -/
def ensureListStep (key : String) (a : JSVal) : JSVal :=
  match getField a "medicalInsights" with
  | none => a
  | some mi =>
      if isArrayOpt (getField mi key) then a
      else setField a "medicalInsights" (setField mi key (varr [] []))

/-- Final block of the sanitizer: install the default clinicalDecisionSupport
when the current one is falsy. -/
def ensureCDSStep (a : JSVal) : JSVal :=
  if truthyOpt (getField2 a "medicalInsights" "clinicalDecisionSupport") then a
  else
    match getField a "medicalInsights" with
    | none => a
    | some mi => setField a "medicalInsights" (setField mi "clinicalDecisionSupport" defaultCDS)

/-- Three array-ensuring statements followed by the clinicalDecisionSupport
default, in source order. -/
def ensureSteps (b : JSVal) : JSVal :=
  ensureCDSStep
    (ensureListStep "differentialDiagnosis"
      (ensureListStep "redFlags"
        (ensureListStep "recommendations" b)))

/-- medicalInsights half of the sanitizer: default the object when falsy,
then run the array and clinicalDecisionSupport statements. -/
def sanitizeMiSteps (b : JSVal) : JSVal :=
  ensureSteps
    (if truthyOpt (getField b "medicalInsights") then b
     else setField b "medicalInsights" (vobj []))

/-- Statement sequence of sanitizeAnalysisData on a container value, in
source order: plan flattening, the clinicalSummary default, then the
medicalInsights statements. -/
def sanitizeCore (analysis : JSVal) : JSVal :=
  let a1 := flattenPlanStep analysis
  let a2 := if truthyOpt (getField a1 "clinicalSummary") then a1
            else setField a1 "clinicalSummary" (vobj [])
  sanitizeMiSteps a2

/-- Model of sanitizeAnalysisData.  On null the very first property read
raises a TypeError which the surrounding try/catch converts into returning the
original value; on the remaining primitives every property assignment is a
sloppy-mode no-op and the read of `analysis.medicalInsights.recommendations`
(a property of undefined) raises, so the catch again returns the original
value unchanged.  On objects and arrays the statement sequence of the source
runs to completion. -/
def sanitizeAnalysisData (analysis : JSVal) : JSVal :=
  match analysis with
  | vnull => analysis
  | vbool _ => analysis
  | vnum _ => analysis
  | vstr _ => analysis
  | _ => sanitizeCore analysis

/-! ## Derived-data generators -/

/-- Follow-up reminder record. -/
structure Reminder where
  type : String
  message : String
  dueDate : Nat
  deriving DecidableEq, Repr

/-- Milliseconds in one day. -/
def msPerDay : Nat := 24 * 60 * 60 * 1000

/-- Reminder produced from one item of a Follow-up recommendation: only truthy
strings qualify. -/
def followupOfItem (now : Nat) (item : JSVal) : Option Reminder :=
  match item with
  | vstr s => if s ≠ "" then some ⟨"followup", s, now + 14 * msPerDay⟩ else none
  | _ => none

/-- Test applied by the recommendations filter: the entry is truthy, its
category is exactly the string Follow-up and its items field is an array. -/
def isFollowupRec (r : JSVal) : Bool :=
  truthy r &&
    (match getField r "category" with
      | some (vstr c) => c = "Follow-up"
      | _ => false) &&
    isArrayOpt (getField r "items")

/-- Elements of the items array of a recommendation entry. -/
def itemsOf (r : JSVal) : List JSVal :=
  match getField r "items" with
  | some (varr es _) => es
  | _ => []

/-- Urgent reminder produced from one red flag: the flag must be truthy with
status exactly Critical, and both its flag and action fields truthy. -/
def urgentOfFlag (now : Nat) (f : JSVal) : Option Reminder :=
  if truthy f &&
      (match getField f "status" with
        | some (vstr c) => c = "Critical"
        | _ => false) then
    match getField f "flag", getField f "action" with
    | some fl, some ac =>
        if truthy fl && truthy ac then
          some ⟨"urgent", "Urgent Action: " ++ jsToString fl ++ " - " ++ jsToString ac,
                now + 1 * msPerDay⟩
        else none
    | _, _ => none
  else none

/-- Model of generateFollowUpReminders, with the current time passed in
explicitly (the source reads Date.now()). -/
def generateFollowUpReminders (now : Nat) (analysis : JSVal) : List Reminder :=
  if !truthy analysis then []
  else
    match getField analysis "medicalInsights" with
    | none => []
    | some mi =>
        if !truthy mi then []
        else
          let fromRecs :=
            match getField mi "recommendations" with
            | some (varr recs _) =>
                ((recs.filter isFollowupRec).map itemsOf).flatten.filterMap (followupOfItem now)
            | _ => []
          let fromFlags :=
            match getField mi "redFlags" with
            | some (varr flags _) => flags.filterMap (urgentOfFlag now)
            | _ => []
          fromRecs ++ fromFlags

/-- Contribution of the differential-diagnosis check of
calculateConfidenceScore: +0.10 when the field is a truthy array with more
than one entry (an array is always truthy). -/
def ddBonus : Option JSVal → ℚ
  | some (varr dd _) => if dd.length > 1 then (1 : ℚ)/10 else 0
  | _ => 0

/-- Contribution of the red-flags check: +0.10 when the field is a non-empty
array. -/
def rfBonus : Option JSVal → ℚ
  | some (varr rf _) => if rf.length > 0 then (1 : ℚ)/10 else 0
  | _ => 0

/-- Contribution of the clinical-decision-support check: +0.10 when the field
is truthy with truthy guidelines. -/
def cdsBonus : Option JSVal → ℚ
  | some cds => if truthy cds && truthyOpt (getField cds "guidelines") then (1 : ℚ)/10 else 0
  | none => 0

/-- Model of calculateConfidenceScore over exact rationals (the JavaScript
float arithmetic of the source is exact at these values): base 0.70, one
bonus per check in source order, Math.min with 0.98 at the end. -/
def calculateConfidenceScore (analysis : JSVal) : ℚ :=
  if !truthy analysis then 7/10
  else
    match getField analysis "medicalInsights" with
    | none => 7/10
    | some mi =>
        if !truthy mi then 7/10
        else
          let s1 : ℚ := 7/10 + ddBonus (getField mi "differentialDiagnosis")
          let s2 : ℚ := s1 + rfBonus (getField mi "redFlags")
          let s3 : ℚ := s2 + cdsBonus (getField mi "clinicalDecisionSupport")
          min s3 (98/100)

/-! ## Pipeline stages of the /analyze route -/

/-- Model of diarizeTranscript: gateway outcomes are passed explicitly; on
success the response content is trimmed, on any error the original transcript
is returned unchanged by the catch block. -/
def diarizeTranscript (transcript : String) (gateway : Except String String) : String :=
  match gateway with
  | .ok content => content.trim
  | .error _ => transcript

/-- Fallback analysis object substituted by the /analyze route when the
clinical-analysis AI call fails or returns a non-object. -/
def fallbackAnalysis : JSVal :=
  vobj
    [("clinicalSummary", vobj
        [("chiefComplaint", vstr "Unable to extract - AI analysis failed"),
         ("historyOfPresentIllness", vstr "Unable to extract - AI analysis failed"),
         ("assessment", vstr "Unable to extract - AI analysis failed"),
         ("plan", vstr "Unable to extract - AI analysis failed"),
         ("vitals", vstr "Not recorded"),
         ("riskFactors", varr [] [])]),
     ("medicalInsights", vobj
        [("differentialDiagnosis", varr [] []),
         ("redFlags", varr [] []),
         ("recommendations", varr [] []),
         ("clinicalDecisionSupport", vobj
            [("guidelines", vstr ""),
             ("evidenceLevel", vstr ""),
             ("recommendedActions", varr [] [])])])]

/-- Clinical-analysis stage of /analyze: a gateway error or unparsable content
is an `.error`; parsed content that is falsy or not object-typed triggers the
same catch; otherwise the parsed analysis is sanitized. -/
def clinicalAnalysisStage (result : Except String JSVal) : JSVal :=
  match result with
  | .error _ => fallbackAnalysis
  | .ok a =>
      if truthy a && typeofObject a then sanitizeAnalysisData a
      else fallbackAnalysis

/-- Strip of one leading bullet marker and the whitespace run after it,
modelling `line.replace(bulletPattern, '')` with the anchored pattern matching
one of the characters -, bullet, * followed by any whitespace. -/
def stripBullet (line : String) : String :=
  match line.data with
  | c :: rest =>
      if c = '-' || c = '•' || c = '*' then
        String.mk (rest.dropWhile Char.isWhitespace)
      else line
  | [] => line

/-- Key-point post-processing of /analyze: split the model output on line
breaks, drop lines that are blank after trimming, strip a leading bullet
marker and trim each kept line. -/
def processKeyPoints (text : String) : List String :=
  ((text.splitOn "\n").filter (fun line => line.trim.length > 0)).map
    (fun line => (stripBullet line).trim)

/-- Manual-review marker returned by the key-point stage on failure. -/
def keyPointsFailureMarker : String :=
  "Key points extraction failed - please review transcript manually"

/-- Key-point stage of /analyze: post-process the gateway text on success,
degrade to the single-element marker list on error. -/
def keyPointsStage (gateway : Except String String) : List String :=
  match gateway with
  | .ok text => processKeyPoints text
  | .error _ => [keyPointsFailureMarker]

/-! ## Consultation store and the /analyze route -/

/-- Fields of a persisted consultation document that the pipeline writes
(analysisMetadata is flattened to its confidenceScore, the only field the
claims inspect). -/
structure ConsultationDoc where
  consultationId : String
  transcript : String
  clinicalSummary : Option JSVal
  medicalInsights : Option JSVal
  keyPoints : List String
  followUpReminders : List Reminder
  confidenceScore : ℚ

/-- Shape of the JSON body answered by /analyze (body holds the spread of the
sanitized analysis). -/
structure PipelineResponse where
  consultationId : String
  transcript : String
  body : JSVal
  keyPoints : List String
  followUpReminders : List Reminder
  confidenceScore : ℚ
  warning : Option String

/-- Warning attached by /analyze when the database save fails. -/
def dbWarning : String := "Analysis completed but not saved to database"

/-- Model of the /analyze pipeline after input validation: stage order is
diarize, clinical analysis with fallback, key points, derived data, then
best-effort persistence.  External outcomes (gateway results, save success,
the generated consultation id and the clock) are explicit parameters. -/
def runPipeline (store : List ConsultationDoc) (transcript : String)
    (diarize : Except String String) (analyze : Except String JSVal)
    (keyPts : Except String String) (saveOk : Bool) (genId : String)
    (now : Nat) : PipelineResponse × List ConsultationDoc :=
  let labeled := diarizeTranscript transcript diarize
  let sanitized := clinicalAnalysisStage analyze
  let kps := keyPointsStage keyPts
  let rems := generateFollowUpReminders now sanitized
  let score := calculateConfidenceScore sanitized
  if saveOk then
    (⟨genId, labeled, sanitized, kps, rems, score, none⟩,
     store ++ [⟨genId, labeled, getField sanitized "clinicalSummary",
               getField sanitized "medicalInsights", kps, rems, score⟩])
  else
    (⟨"TEMP-" ++ toString now, labeled, sanitized, kps, rems, score, some dbWarning⟩,
     store)

/-- Model of the /analyze route: a missing transcript is rejected with a 400
before the pipeline runs; otherwise the pipeline runs to completion. -/
def analyzeRoute (store : List ConsultationDoc) (transcript : String)
    (diarize : Except String String) (analyze : Except String JSVal)
    (keyPts : Except String String) (saveOk : Bool) (genId : String)
    (now : Nat) : Except String (PipelineResponse × List ConsultationDoc) :=
  if transcript = "" then .error "Transcript is required"
  else .ok (runPipeline store transcript diarize analyze keyPts saveOk genId now)

/-- Model of `Consultation.findOne(consultationId)`: `none` is the
not-found outcome answered as a 404. -/
def getById (store : List ConsultationDoc) (id : String) : Option ConsultationDoc :=
  store.find? (fun d => d.consultationId = id)

/-- Pagination envelope of GET /consultations. -/
structure PaginationInfo where
  current : Nat
  total : Nat
  count : Nat
  totalRecords : Nat
  deriving DecidableEq, Repr

/-- Model of GET /consultations on the already-filtered, already-sorted list
of matching documents (documents are Mongo objects, i.e. association lists):
skip (page-1)*limit records, take limit, drop the transcript field from each,
and report Math.ceil(total/limit) as the page count. -/
def listConsultations (matching : List (List (String × JSVal))) (page limit : Nat) :
    List (List (String × JSVal)) × PaginationInfo :=
  let skip := (page - 1) * limit
  let pageItems := ((matching.drop skip).take limit).map
    (fun doc => doc.filter (fun p => p.1 ≠ "transcript"))
  (pageItems, ⟨page, (matching.length + limit - 1) / limit, pageItems.length, matching.length⟩)

/-! ## GET /stats/consultations -/

/-- Fields of a stored consultation that the statistics aggregation reads. -/
structure StatRecord where
  createdAt : Nat
  confidenceScore : ℚ
  patientId : Option String
  deriving DecidableEq

/-- Inclusive createdAt range test built from the optional startDate and
endDate query parameters. -/
def inDateRange (startDate endDate : Option Nat) (t : Nat) : Bool :=
  (match startDate with | some s => s ≤ t | none => true) &&
  (match endDate with | some e => t ≤ e | none => true)

/-- Result shape of GET /stats/consultations. -/
structure StatsResult where
  totalConsultations : Nat
  avgConfidenceScore : ℚ
  uniquePatients : Nat
  dailyTrend : List (Nat × Nat)
  deriving DecidableEq

/-- Model of GET /stats/consultations: the first aggregation groups the
date-filtered records into a count, an average confidence score and the set of
distinct patient ids ($addToSet skips missing fields); the second aggregation
groups the records of the last 30 days - with no date filter applied - by
calendar day and sorts the buckets by day. -/
def aggregateStats (records : List StatRecord) (startDate endDate : Option Nat)
    (now : Nat) : StatsResult :=
  let matched := records.filter (fun r => inDateRange startDate endDate r.createdAt)
  let avg : ℚ := if matched.length = 0 then 0
    else (matched.map (·.confidenceScore)).sum / matched.length
  let uniquePatients := (matched.filterMap (·.patientId)).dedup.length
  let windowDays := (records.filter (fun r => now - 30 * msPerDay ≤ r.createdAt)).map
    (fun r => r.createdAt / msPerDay)
  let dailyTrend := (windowDays.dedup.insertionSort (· ≤ ·)).map
    (fun d => (d, windowDays.count d))
  ⟨matched.length, avg, uniquePatients, dailyTrend⟩

/-- Values whose position as clinicalSummary.plan the sanitizer leaves alone:
absent plans, and plans that are falsy or not object-typed. -/
def planInertOpt : Option JSVal → Prop
  | none => True
  | some p => (truthy p && typeofObject p) = false

/-- Facts guaranteed of a sanitized medicalInsights object: an object or
array in which the three list fields are arrays and clinicalDecisionSupport
is truthy. -/
def MiGood (mi : JSVal) : Prop :=
  isContainer mi = true ∧
  isArrayOpt (getField mi "recommendations") = true ∧
  isArrayOpt (getField mi "redFlags") = true ∧
  isArrayOpt (getField mi "differentialDiagnosis") = true ∧
  truthyOpt (getField mi "clinicalDecisionSupport") = true

/-- Shape facts holding of every sanitized container: the result is a
container, its clinicalSummary is truthy with a plan the flattening statement
leaves alone, and its medicalInsights is truthy and either fully repaired or
the original primitive (on which every later write is a no-op). -/
def SanShape (a y : JSVal) : Prop :=
  isContainer y = true ∧
  (∃ csv, getField y "clinicalSummary" = some csv ∧ truthy csv = true ∧
    planInertOpt (getField csv "plan")) ∧
  (∃ miv, getField y "medicalInsights" = some miv ∧ truthy miv = true ∧
    (MiGood miv ∨
      (isContainer miv = false ∧ getField a "medicalInsights" = some miv ∧
       setField y "medicalInsights" miv = y)))

/-- Inputs whose medicalInsights the sanitizer can actually repair: absent,
falsy, or a container.  A truthy primitive medicalInsights silently defeats
the sloppy-mode property writes of the source. -/
def miOkInput (x : JSVal) : Prop :=
  match getField x "medicalInsights" with
  | some m => truthy m = false ∨ isContainer m = true
  | none => True

/-- Value of medicalInsights after the sanitizer has defaulted an absent or
falsy one and repaired the fresh empty object. -/
def repairedMiDefault : JSVal :=
  vobj [("recommendations", varr [] []), ("redFlags", varr [] []),
        ("differentialDiagnosis", varr [] []), ("clinicalDecisionSupport", defaultCDS)]

/-! ## Helper definitions for the claim statements -/

/-- Boolean form of the differential-diagnosis check on a field value. -/
def ddFlag : Option JSVal → Bool
  | some (varr l _) => decide (l.length > 1)
  | _ => false

/-- Boolean form of the red-flags check on a field value. -/
def rfFlag : Option JSVal → Bool
  | some (varr l _) => decide (l.length > 0)
  | _ => false

/-- Boolean form of the clinical-decision-support check on a field value. -/
def cdsFlag : Option JSVal → Bool
  | some cds => truthy cds && truthyOpt (getField cds "guidelines")
  | none => false

/-- Condition of the first confidence bonus, read off the analysis the way the
source reads it: differentialDiagnosis is an array with more than one entry. -/
def ddCond (a : JSVal) : Bool :=
  ddFlag (getField2 a "medicalInsights" "differentialDiagnosis")

/-- Condition of the second confidence bonus: redFlags is a non-empty
array. -/
def rfCond (a : JSVal) : Bool :=
  rfFlag (getField2 a "medicalInsights" "redFlags")

/-- Condition of the third confidence bonus: clinicalDecisionSupport is truthy
with truthy guidelines. -/
def cdsCond (a : JSVal) : Bool :=
  cdsFlag (getField2 a "medicalInsights" "clinicalDecisionSupport")

/-- Confidence score as a function of the three boolean conditions alone. -/
def scoreOfFlags (b1 b2 b3 : Bool) : ℚ :=
  min ((7 : ℚ)/10 + (if b1 then (1 : ℚ)/10 else 0) + (if b2 then (1 : ℚ)/10 else 0)
    + (if b3 then (1 : ℚ)/10 else 0)) (98/100)

/-- Key-point post-processing stated the way the specification reads: walk the
lines, drop each line that is blank after trimming, and clean each kept line
by stripping a leading bullet marker and trimming. -/
def keyPointsOfLines : List String → List String
  | [] => []
  | l :: rest =>
      if l.trim = "" then keyPointsOfLines rest
      else (stripBullet l).trim :: keyPointsOfLines rest

/-! ## Basic lemmas about property reads and writes -/

theorem alookup_aset_self (l : List (String × JSVal)) (k : String) (v : JSVal) :
    alookup (aset l k v) k = some v := by
  induction l with
  | nil => simp [aset, alookup]
  | cons p rest ih =>
      by_cases h : p.1 = k
      · simp [aset, h, alookup]
      · simp [aset, h, alookup, ih]

theorem alookup_aset_ne (l : List (String × JSVal)) (k k' : String) (v : JSVal)
    (h : k' ≠ k) : alookup (aset l k v) k' = alookup l k' := by
  induction l with
  | nil => simp [aset, alookup, Ne.symm h]
  | cons p rest ih =>
      by_cases hp : p.1 = k
      · simp [aset, hp, alookup, Ne.symm h]
      · by_cases hp' : p.1 = k'
        · simp [aset, hp, alookup, hp', h]
        · simp [aset, hp, alookup, hp', ih]

theorem aset_aset_self (l : List (String × JSVal)) (k : String) (v w : JSVal) :
    aset (aset l k v) k w = aset l k w := by
  induction l with
  | nil => simp [aset]
  | cons p rest ih =>
      by_cases h : p.1 = k
      · simp [aset, h]
      · simp [aset, h, ih]

theorem getField_setField_self (a : JSVal) (k : String) (v : JSVal)
    (h : isContainer a = true) : getField (setField a k v) k = some v := by
  cases a <;> simp_all [isContainer, setField, getField, alookup_aset_self]

theorem getField_setField_ne (a : JSVal) (k k' : String) (v : JSVal)
    (h : k' ≠ k) : getField (setField a k v) k' = getField a k' := by
  cases a <;> simp [setField, getField, alookup_aset_ne _ _ _ _ h]

theorem setField_setField_self (a : JSVal) (k : String) (v w : JSVal) :
    setField (setField a k v) k w = setField a k w := by
  cases a <;> simp [setField, aset_aset_self]

theorem setField_of_not_container (a : JSVal) (k : String) (v : JSVal)
    (h : isContainer a = false) : setField a k v = a := by
  cases a <;> simp_all [isContainer, setField]

theorem isContainer_setField (a : JSVal) (k : String) (v : JSVal) :
    isContainer (setField a k v) = isContainer a := by
  cases a <;> simp [setField, isContainer]

theorem truthy_setField (a : JSVal) (k : String) (v : JSVal) :
    truthy (setField a k v) = truthy a := by
  cases a <;> simp [setField, truthy]

theorem getField_eq_none_of_not_container (a : JSVal) (k : String)
    (h : isContainer a = false) : getField a k = none := by
  cases a <;> simp_all [isContainer, getField]

theorem isContainer_of_getField_eq_some (a : JSVal) (k : String) (v : JSVal)
    (h : getField a k = some v) : isContainer a = true := by
  cases a <;> simp_all [getField, isContainer]

/-! ## Step lemmas about the sanitizer -/

theorem sanitizeAnalysisData_eq_core (a : JSVal) (hc : isContainer a = true) :
    sanitizeAnalysisData a = sanitizeCore a := by
  cases a with
  | vnull => simp [isContainer] at hc
  | vbool b => simp [isContainer] at hc
  | vnum n => simp [isContainer] at hc
  | vstr s => simp [isContainer] at hc
  | varr es ps => rfl
  | vobj fs => rfl

theorem sanitizeAnalysisData_of_not_container (a : JSVal)
    (hc : isContainer a = false) : sanitizeAnalysisData a = a := by
  cases a with
  | vnull => rfl
  | vbool b => rfl
  | vnum n => rfl
  | vstr s => rfl
  | varr es ps => simp [isContainer] at hc
  | vobj fs => simp [isContainer] at hc

theorem typeofObject_flattenPlanValue (p : JSVal) :
    typeofObject (flattenPlanValue p) = false := by
  unfold flattenPlanValue
  repeat' split
  all_goals simp [typeofObject]

theorem getField_flattenPlanStep_ne (a : JSVal) (k : String)
    (h : k ≠ "clinicalSummary") :
    getField (flattenPlanStep a) k = getField a k := by
  unfold flattenPlanStep
  repeat' split
  all_goals first
    | rfl
    | exact getField_setField_ne _ _ _ _ h

theorem isContainer_flattenPlanStep (a : JSVal) :
    isContainer (flattenPlanStep a) = isContainer a := by
  unfold flattenPlanStep
  repeat' split
  all_goals first
    | rfl
    | exact isContainer_setField _ _ _

theorem flattenPlanStep_of_cs_falsy (a : JSVal)
    (h : truthyOpt (getField a "clinicalSummary") = false) :
    flattenPlanStep a = a := by
  unfold flattenPlanStep
  cases h0 : getField a "clinicalSummary" with
  | none => rfl
  | some cs =>
      rw [h0] at h
      simp only [truthyOpt] at h
      simp [h]

theorem flattenPlanStep_planInert (a csv : JSVal)
    (h : getField (flattenPlanStep a) "clinicalSummary" = some csv)
    (ht : truthy csv = true) : planInertOpt (getField csv "plan") := by
  cases h0 : getField a "clinicalSummary" with
  | none =>
      have he : flattenPlanStep a = a := by
        unfold flattenPlanStep
        rw [h0]
      rw [he, h0] at h
      cases h
  | some cs =>
      by_cases htc : truthy cs = true
      · cases hp : getField cs "plan" with
        | none =>
            have he : flattenPlanStep a = a := by
              unfold flattenPlanStep
              rw [h0]
              simp [htc, hp]
            rw [he, h0] at h
            injection h with h
            subst h
            simp [planInertOpt, hp]
        | some p =>
            by_cases hg : (truthy p && typeofObject p) = true
            · have haC : isContainer a = true :=
                isContainer_of_getField_eq_some a _ cs h0
              have hcsC : isContainer cs = true :=
                isContainer_of_getField_eq_some cs _ p hp
              have he : flattenPlanStep a =
                  setField a "clinicalSummary" (setField cs "plan" (flattenPlanValue p)) := by
                unfold flattenPlanStep
                rw [h0]
                simp [htc, hp, hg]
              rw [he, getField_setField_self a _ _ haC] at h
              injection h with h
              subst h
              rw [getField_setField_self cs _ _ hcsC]
              simp [planInertOpt, typeofObject_flattenPlanValue]
            · have he : flattenPlanStep a = a := by
                unfold flattenPlanStep
                rw [h0]
                simp [htc, hp, hg]
              rw [he, h0] at h
              injection h with h
              subst h
              have hgf : (truthy p && typeofObject p) = false := by
                cases hq : (truthy p && typeofObject p) with
                | false => rfl
                | true => exact absurd hq hg
              simp [planInertOpt, hp, hgf]
      · have he : flattenPlanStep a = a := by
          unfold flattenPlanStep
          rw [h0]
          simp [htc]
        rw [he, h0] at h
        injection h with h
        subst h
        exact absurd ht htc

theorem getField_ensureListStep_ne (key : String) (a : JSVal) (k : String)
    (h : k ≠ "medicalInsights") :
    getField (ensureListStep key a) k = getField a k := by
  unfold ensureListStep
  repeat' split
  all_goals first
    | rfl
    | exact getField_setField_ne _ _ _ _ h

theorem isContainer_ensureListStep (key : String) (a : JSVal) :
    isContainer (ensureListStep key a) = isContainer a := by
  unfold ensureListStep
  repeat' split
  all_goals first
    | rfl
    | exact isContainer_setField _ _ _

theorem getField_ensureCDSStep_ne (a : JSVal) (k : String)
    (h : k ≠ "medicalInsights") :
    getField (ensureCDSStep a) k = getField a k := by
  unfold ensureCDSStep
  repeat' split
  all_goals first
    | rfl
    | exact getField_setField_ne _ _ _ _ h

theorem isContainer_ensureCDSStep (a : JSVal) :
    isContainer (ensureCDSStep a) = isContainer a := by
  unfold ensureCDSStep
  repeat' split
  all_goals first
    | rfl
    | exact isContainer_setField _ _ _

/-! ## Tracing the medicalInsights statements of the sanitizer -/

theorem bfalse {b : Bool} (h : ¬ b = true) : b = false := by
  cases b
  · rfl
  · exact absurd rfl h

theorem ensureListStep_eq (key : String) (a mi : JSVal)
    (hm : getField a "medicalInsights" = some mi) :
    ensureListStep key a =
      if isArrayOpt (getField mi key) then a
      else setField a "medicalInsights" (setField mi key (varr [] [])) := by
  unfold ensureListStep
  rw [hm]

theorem ensureCDSStep_eq (a mi : JSVal)
    (hm : getField a "medicalInsights" = some mi) :
    ensureCDSStep a =
      if truthyOpt (getField mi "clinicalDecisionSupport") then a
      else setField a "medicalInsights"
        (setField mi "clinicalDecisionSupport" defaultCDS) := by
  unfold ensureCDSStep getField2
  rw [hm]

theorem ensureListStep_container (key : String) (b m : JSVal)
    (hcb : isContainer b = true) (hm : getField b "medicalInsights" = some m)
    (hcm : isContainer m = true) (htm : truthy m = true) :
    ∃ m', getField (ensureListStep key b) "medicalInsights" = some m' ∧
      isContainer m' = true ∧ truthy m' = true ∧
      isArrayOpt (getField m' key) = true ∧
      ∀ k, k ≠ key → getField m' k = getField m k := by
  rw [ensureListStep_eq key b m hm]
  by_cases harr : isArrayOpt (getField m key) = true
  · refine ⟨m, ?_, hcm, htm, harr, fun k hk => rfl⟩
    simp [harr, hm]
  · have harr' : isArrayOpt (getField m key) = false := bfalse harr
    refine ⟨setField m key (varr [] []), ?_, ?_, ?_, ?_, ?_⟩
    · simp only [harr', Bool.false_eq_true, if_false]
      exact getField_setField_self b _ _ hcb
    · rw [isContainer_setField]
      exact hcm
    · rw [truthy_setField]
      exact htm
    · rw [getField_setField_self m key _ hcm]
      rfl
    · intro k hk
      exact getField_setField_ne m key k _ hk

theorem ensureCDSStep_container (b m : JSVal)
    (hcb : isContainer b = true) (hm : getField b "medicalInsights" = some m)
    (hcm : isContainer m = true) (htm : truthy m = true) :
    ∃ m', getField (ensureCDSStep b) "medicalInsights" = some m' ∧
      isContainer m' = true ∧ truthy m' = true ∧
      truthyOpt (getField m' "clinicalDecisionSupport") = true ∧
      ∀ k, k ≠ "clinicalDecisionSupport" → getField m' k = getField m k := by
  rw [ensureCDSStep_eq b m hm]
  by_cases hcds : truthyOpt (getField m "clinicalDecisionSupport") = true
  · refine ⟨m, ?_, hcm, htm, hcds, fun k hk => rfl⟩
    simp [hcds, hm]
  · have hcds' : truthyOpt (getField m "clinicalDecisionSupport") = false := bfalse hcds
    refine ⟨setField m "clinicalDecisionSupport" defaultCDS, ?_, ?_, ?_, ?_, ?_⟩
    · simp only [hcds', Bool.false_eq_true, if_false]
      exact getField_setField_self b _ _ hcb
    · rw [isContainer_setField]
      exact hcm
    · rw [truthy_setField]
      exact htm
    · rw [getField_setField_self m _ _ hcm]
      rfl
    · intro k hk
      exact getField_setField_ne m _ k _ hk

theorem isContainer_ensureSteps (b : JSVal) :
    isContainer (ensureSteps b) = isContainer b := by
  unfold ensureSteps
  rw [isContainer_ensureCDSStep, isContainer_ensureListStep,
    isContainer_ensureListStep, isContainer_ensureListStep]

theorem getField_ensureSteps_ne (b : JSVal) (k : String)
    (h : k ≠ "medicalInsights") :
    getField (ensureSteps b) k = getField b k := by
  unfold ensureSteps
  rw [getField_ensureCDSStep_ne _ _ h, getField_ensureListStep_ne _ _ _ h,
    getField_ensureListStep_ne _ _ _ h, getField_ensureListStep_ne _ _ _ h]

theorem ensureSteps_container (b m : JSVal)
    (hcb : isContainer b = true) (hm : getField b "medicalInsights" = some m)
    (htm : truthy m = true) (hcm : isContainer m = true) :
    ∃ miv, getField (ensureSteps b) "medicalInsights" = some miv ∧
      truthy miv = true ∧ MiGood miv := by
  unfold ensureSteps
  obtain ⟨m1, hm1, hcm1, htm1, harr1, hpres1⟩ :=
    ensureListStep_container "recommendations" b m hcb hm hcm htm
  have hcb1 : isContainer (ensureListStep "recommendations" b) = true := by
    rw [isContainer_ensureListStep]; exact hcb
  obtain ⟨m2, hm2, hcm2, htm2, harr2, hpres2⟩ :=
    ensureListStep_container "redFlags" _ m1 hcb1 hm1 hcm1 htm1
  have hcb2 : isContainer (ensureListStep "redFlags" (ensureListStep "recommendations" b)) = true := by
    rw [isContainer_ensureListStep]; exact hcb1
  obtain ⟨m3, hm3, hcm3, htm3, harr3, hpres3⟩ :=
    ensureListStep_container "differentialDiagnosis" _ m2 hcb2 hm2 hcm2 htm2
  have hcb3 : isContainer (ensureListStep "differentialDiagnosis"
      (ensureListStep "redFlags" (ensureListStep "recommendations" b))) = true := by
    rw [isContainer_ensureListStep]; exact hcb2
  obtain ⟨m4, hm4, hcm4, htm4, hcds4, hpres4⟩ :=
    ensureCDSStep_container _ m3 hcb3 hm3 hcm3 htm3
  refine ⟨m4, hm4, htm4, hcm4, ?_, ?_, ?_, hcds4⟩
  · rw [hpres4 _ (by decide), hpres3 _ (by decide), hpres2 _ (by decide)]
    exact harr1
  · rw [hpres4 _ (by decide), hpres3 _ (by decide)]
    exact harr2
  · rw [hpres4 _ (by decide)]
    exact harr3

theorem ensureSteps_prim (b m : JSVal)
    (hcb : isContainer b = true) (hm : getField b "medicalInsights" = some m)
    (hcm : isContainer m = false) :
    ensureSteps b = setField b "medicalInsights" m := by
  have hnone : ∀ k, getField m k = none :=
    fun k => getField_eq_none_of_not_container m k hcm
  have hset : ∀ k v, setField m k v = m :=
    fun k v => setField_of_not_container m k v hcm
  have hm1 : getField (setField b "medicalInsights" m) "medicalInsights" = some m :=
    getField_setField_self b _ m hcb
  have h1 : ensureListStep "recommendations" b = setField b "medicalInsights" m := by
    rw [ensureListStep_eq _ b m hm, hnone, hset]
    simp [isArrayOpt]
  have h2 : ensureListStep "redFlags" (setField b "medicalInsights" m)
      = setField b "medicalInsights" m := by
    rw [ensureListStep_eq _ _ m hm1, hnone, hset]
    simp [isArrayOpt, setField_setField_self]
  have h3 : ensureListStep "differentialDiagnosis" (setField b "medicalInsights" m)
      = setField b "medicalInsights" m := by
    rw [ensureListStep_eq _ _ m hm1, hnone, hset]
    simp [isArrayOpt, setField_setField_self]
  have h4 : ensureCDSStep (setField b "medicalInsights" m)
      = setField b "medicalInsights" m := by
    rw [ensureCDSStep_eq _ m hm1, hnone, hset]
    simp [truthyOpt, setField_setField_self]
  unfold ensureSteps
  rw [h1, h2, h3, h4]

theorem sanitizeMiSteps_shape (b : JSVal) (hcb : isContainer b = true) :
    isContainer (sanitizeMiSteps b) = true ∧
    getField (sanitizeMiSteps b) "clinicalSummary" = getField b "clinicalSummary" ∧
    ∃ miv, getField (sanitizeMiSteps b) "medicalInsights" = some miv ∧
      truthy miv = true ∧
      (MiGood miv ∨
        (isContainer miv = false ∧ getField b "medicalInsights" = some miv ∧
         setField (sanitizeMiSteps b) "medicalInsights" miv = sanitizeMiSteps b)) := by
  by_cases hmt : truthyOpt (getField b "medicalInsights") = true
  · have hbody : sanitizeMiSteps b = ensureSteps b := by
      unfold sanitizeMiSteps
      rw [hmt]
      simp
    obtain ⟨m, hm⟩ : ∃ m, getField b "medicalInsights" = some m := by
      cases hq : getField b "medicalInsights" with
      | none => rw [hq] at hmt; cases hmt
      | some m => exact ⟨m, rfl⟩
    have htm : truthy m = true := by
      rw [hm] at hmt
      exact hmt
    by_cases hcm : isContainer m = true
    · obtain ⟨miv, hmiv, htmiv, hgood⟩ := ensureSteps_container b m hcb hm htm hcm
      refine ⟨?_, ?_, miv, ?_, htmiv, Or.inl hgood⟩
      · rw [hbody, isContainer_ensureSteps]; exact hcb
      · rw [hbody]; exact getField_ensureSteps_ne b _ (by decide)
      · rw [hbody]; exact hmiv
    · have hcm' : isContainer m = false := bfalse hcm
      have hy : sanitizeMiSteps b = setField b "medicalInsights" m := by
        rw [hbody]
        exact ensureSteps_prim b m hcb hm hcm'
      refine ⟨?_, ?_, m, ?_, htm, Or.inr ⟨hcm', hm, ?_⟩⟩
      · rw [hy, isContainer_setField]; exact hcb
      · rw [hy]; exact getField_setField_ne b _ _ m (by decide)
      · rw [hy]; exact getField_setField_self b _ m hcb
      · rw [hy, setField_setField_self]
  · have hmt' : truthyOpt (getField b "medicalInsights") = false := bfalse hmt
    have hbody : sanitizeMiSteps b =
        ensureSteps (setField b "medicalInsights" (vobj [])) := by
      unfold sanitizeMiSteps
      rw [hmt']
      simp
    have hcb1 : isContainer (setField b "medicalInsights" (vobj [])) = true := by
      rw [isContainer_setField]; exact hcb
    have hm1 : getField (setField b "medicalInsights" (vobj [])) "medicalInsights"
        = some (vobj []) := getField_setField_self b _ _ hcb
    obtain ⟨miv, hmiv, htmiv, hgood⟩ :=
      ensureSteps_container _ (vobj []) hcb1 hm1 rfl rfl
    refine ⟨?_, ?_, miv, ?_, htmiv, Or.inl hgood⟩
    · rw [hbody, isContainer_ensureSteps]; exact hcb1
    · rw [hbody, getField_ensureSteps_ne _ _ (by decide)]
      exact getField_setField_ne b _ _ _ (by decide)
    · rw [hbody]; exact hmiv

theorem sanitizeCore_shape (a : JSVal) (hc : isContainer a = true) :
    SanShape a (sanitizeCore a) := by
  have hc1 : isContainer (flattenPlanStep a) = true := by
    rw [isContainer_flattenPlanStep]; exact hc
  by_cases h2 : truthyOpt (getField (flattenPlanStep a) "clinicalSummary") = true
  · have hbody : sanitizeCore a = sanitizeMiSteps (flattenPlanStep a) := by
      unfold sanitizeCore
      simp [h2]
    obtain ⟨csv, hcsv⟩ : ∃ csv, getField (flattenPlanStep a) "clinicalSummary" = some csv := by
      cases hq : getField (flattenPlanStep a) "clinicalSummary" with
      | none => rw [hq] at h2; cases h2
      | some c => exact ⟨c, rfl⟩
    have htcsv : truthy csv = true := by rw [hcsv] at h2; exact h2
    have hinert := flattenPlanStep_planInert a csv hcsv htcsv
    obtain ⟨hcy, hcs_eq, miv, hmiv, htmiv, hdisj⟩ :=
      sanitizeMiSteps_shape (flattenPlanStep a) hc1
    rw [hbody]
    refine ⟨hcy, ⟨csv, by rw [hcs_eq]; exact hcsv, htcsv, hinert⟩, miv, hmiv, htmiv, ?_⟩
    cases hdisj with
    | inl hgood => exact Or.inl hgood
    | inr hprim =>
        refine Or.inr ⟨hprim.1, ?_, hprim.2.2⟩
        rw [← getField_flattenPlanStep_ne a _ (by decide)]
        exact hprim.2.1
  · have h2' : truthyOpt (getField (flattenPlanStep a) "clinicalSummary") = false := bfalse h2
    have hbody : sanitizeCore a =
        sanitizeMiSteps (setField (flattenPlanStep a) "clinicalSummary" (vobj [])) := by
      unfold sanitizeCore
      simp [h2']
    have hcb : isContainer (setField (flattenPlanStep a) "clinicalSummary" (vobj [])) = true := by
      rw [isContainer_setField]; exact hc1
    have hcsb : getField (setField (flattenPlanStep a) "clinicalSummary" (vobj []))
        "clinicalSummary" = some (vobj []) := getField_setField_self _ _ _ hc1
    obtain ⟨hcy, hcs_eq, miv, hmiv, htmiv, hdisj⟩ := sanitizeMiSteps_shape _ hcb
    rw [hbody]
    refine ⟨hcy, ⟨vobj [], by rw [hcs_eq]; exact hcsb, rfl, by simp [planInertOpt, getField, alookup]⟩,
      miv, hmiv, htmiv, ?_⟩
    cases hdisj with
    | inl hgood => exact Or.inl hgood
    | inr hprim =>
        refine Or.inr ⟨hprim.1, ?_, hprim.2.2⟩
        have := hprim.2.1
        rw [getField_setField_ne _ _ _ _ (by decide),
          getField_flattenPlanStep_ne a _ (by decide)] at this
        exact this

/-! ## The sanitizer is a projection -/

theorem flattenPlanStep_of_inert (y csv : JSVal)
    (h : getField y "clinicalSummary" = some csv) (ht : truthy csv = true)
    (hi : planInertOpt (getField csv "plan")) : flattenPlanStep y = y := by
  unfold flattenPlanStep
  rw [h]
  cases hp : getField csv "plan" with
  | none => simp [ht, hp]
  | some p =>
      rw [hp] at hi
      simp only [planInertOpt] at hi
      simp [ht, hp, hi]

theorem ensureSteps_of_good (y miv : JSVal)
    (hm : getField y "medicalInsights" = some miv) (hg : MiGood miv) :
    ensureSteps y = y := by
  obtain ⟨hc, h1, h2, h3, h4⟩ := hg
  have e1 : ensureListStep "recommendations" y = y := by
    rw [ensureListStep_eq _ y miv hm]
    simp [h1]
  have e2 : ensureListStep "redFlags" y = y := by
    rw [ensureListStep_eq _ y miv hm]
    simp [h2]
  have e3 : ensureListStep "differentialDiagnosis" y = y := by
    rw [ensureListStep_eq _ y miv hm]
    simp [h3]
  have e4 : ensureCDSStep y = y := by
    rw [ensureCDSStep_eq y miv hm]
    simp [h4]
  unfold ensureSteps
  rw [e1, e2, e3, e4]

theorem sanitizeCore_of_shape (a y : JSVal) (hs : SanShape a y) :
    sanitizeCore y = y := by
  obtain ⟨hcy, ⟨csv, hcsv, htc, hin⟩, ⟨miv, hmiv, htm, hdisj⟩⟩ := hs
  have hflat : flattenPlanStep y = y := flattenPlanStep_of_inert y csv hcsv htc hin
  have hcs_t : truthyOpt (getField y "clinicalSummary") = true := by
    rw [hcsv]
    exact htc
  have hmi_t : truthyOpt (getField y "medicalInsights") = true := by
    rw [hmiv]
    exact htm
  have hmisteps : sanitizeMiSteps y = y := by
    unfold sanitizeMiSteps
    simp only [hmi_t, if_true]
    cases hdisj with
    | inl hgood => exact ensureSteps_of_good y miv hmiv hgood
    | inr hprim =>
        rw [ensureSteps_prim y miv hcy hmiv hprim.1]
        exact hprim.2.2
  unfold sanitizeCore
  simp only [hflat, hcs_t, if_true]
  exact hmisteps

theorem sanitizeAnalysisData_idem (x : JSVal) :
    sanitizeAnalysisData (sanitizeAnalysisData x) = sanitizeAnalysisData x := by
  by_cases hc : isContainer x = true
  · have h1 : sanitizeAnalysisData x = sanitizeCore x := sanitizeAnalysisData_eq_core x hc
    have hshape := sanitizeCore_shape x hc
    have hcy : isContainer (sanitizeCore x) = true := hshape.1
    rw [h1, sanitizeAnalysisData_eq_core _ hcy]
    exact sanitizeCore_of_shape x _ hshape
  · have hc' := bfalse hc
    rw [sanitizeAnalysisData_of_not_container x hc',
      sanitizeAnalysisData_of_not_container x hc']

theorem sanitize_lists (x : JSVal) (hc : isContainer x = true) (hok : miOkInput x) :
    ∃ miv, getField (sanitizeAnalysisData x) "medicalInsights" = some miv ∧ MiGood miv := by
  have hshape := sanitizeCore_shape x hc
  rw [sanitizeAnalysisData_eq_core x hc]
  obtain ⟨_, _, miv, hmiv, htm, hdisj⟩ := hshape
  cases hdisj with
  | inl hgood => exact ⟨miv, hmiv, hgood⟩
  | inr hprim =>
      obtain ⟨hnc, hat, _⟩ := hprim
      unfold miOkInput at hok
      rw [hat] at hok
      cases hok with
      | inl hfalsy => rw [htm] at hfalsy; cases hfalsy
      | inr hcont => rw [hnc] at hcont; cases hcont

theorem sanitize_lists_fields (x : JSVal) (hc : isContainer x = true)
    (hok : miOkInput x) :
    isArrayOpt (getField2 (sanitizeAnalysisData x) "medicalInsights" "recommendations") = true ∧
    isArrayOpt (getField2 (sanitizeAnalysisData x) "medicalInsights" "redFlags") = true ∧
    isArrayOpt (getField2 (sanitizeAnalysisData x) "medicalInsights" "differentialDiagnosis") = true ∧
    truthyOpt (getField2 (sanitizeAnalysisData x) "medicalInsights" "clinicalDecisionSupport") = true := by
  obtain ⟨miv, hmiv, _, h1, h2, h3, h4⟩ := sanitize_lists x hc hok
  unfold getField2
  rw [hmiv]
  exact ⟨h1, h2, h3, h4⟩

/-! ## Tracing the clinicalSummary statements of the sanitizer -/

theorem sanitize_plan (x cs p : JSVal) (hc : isContainer x = true)
    (h1 : getField x "clinicalSummary" = some cs) (h2 : truthy cs = true)
    (h3 : getField cs "plan" = some p) (h4 : truthy p = true)
    (h5 : typeofObject p = true) :
    getField2 (sanitizeAnalysisData x) "clinicalSummary" "plan"
      = some (flattenPlanValue p) := by
  have hcsC : isContainer cs = true := isContainer_of_getField_eq_some cs _ p h3
  have hflat : flattenPlanStep x
      = setField x "clinicalSummary" (setField cs "plan" (flattenPlanValue p)) := by
    unfold flattenPlanStep
    rw [h1]
    simp [h2, h3, h4, h5]
  have hcs1 : getField (flattenPlanStep x) "clinicalSummary"
      = some (setField cs "plan" (flattenPlanValue p)) := by
    rw [hflat]
    exact getField_setField_self x _ _ hc
  have hcond : truthyOpt (getField (flattenPlanStep x) "clinicalSummary") = true := by
    rw [hcs1]
    show truthy (setField cs "plan" (flattenPlanValue p)) = true
    rw [truthy_setField]
    exact h2
  have hc1 : isContainer (flattenPlanStep x) = true := by
    rw [isContainer_flattenPlanStep]
    exact hc
  have hbody : sanitizeCore x = sanitizeMiSteps (flattenPlanStep x) := by
    unfold sanitizeCore
    simp [hcond]
  rw [sanitizeAnalysisData_eq_core x hc, hbody]
  unfold getField2
  obtain ⟨_, hcs_eq, _⟩ := sanitizeMiSteps_shape (flattenPlanStep x) hc1
  rw [hcs_eq, hcs1]
  show getField (setField cs "plan" (flattenPlanValue p)) "plan" = some (flattenPlanValue p)
  exact getField_setField_self cs _ _ hcsC

theorem sanitize_cs_default (x : JSVal) (hc : isContainer x = true)
    (h : truthyOpt (getField x "clinicalSummary") = false) :
    getField (sanitizeAnalysisData x) "clinicalSummary" = some (vobj []) := by
  have hflat : flattenPlanStep x = x := flattenPlanStep_of_cs_falsy x h
  rw [sanitizeAnalysisData_eq_core x hc]
  unfold sanitizeCore
  simp only [hflat, h, Bool.false_eq_true, if_false]
  obtain ⟨_, hcs_eq, _⟩ := sanitizeMiSteps_shape (setField x "clinicalSummary" (vobj []))
    (by rw [isContainer_setField]; exact hc)
  rw [hcs_eq]
  exact getField_setField_self x _ _ hc

theorem ensureSteps_fresh (b : JSVal) (hcb : isContainer b = true)
    (hm : getField b "medicalInsights" = some (vobj [])) :
    ensureSteps b = setField b "medicalInsights" repairedMiDefault := by
  have hcond1 : isArrayOpt (getField (vobj []) "recommendations") = false := rfl
  have harg1 : setField (vobj []) "recommendations" (varr [] [])
      = vobj [("recommendations", varr [] [])] := rfl
  have e1 : ensureListStep "recommendations" b
      = setField b "medicalInsights" (vobj [("recommendations", varr [] [])]) := by
    rw [ensureListStep_eq _ b _ hm, hcond1, harg1]
    simp
  have hm1 : getField (setField b "medicalInsights" (vobj [("recommendations", varr [] [])]))
      "medicalInsights" = some (vobj [("recommendations", varr [] [])]) :=
    getField_setField_self b _ _ hcb
  have hcond2 : isArrayOpt (getField (vobj [("recommendations", varr [] [])]) "redFlags")
      = false := rfl
  have harg2 : setField (vobj [("recommendations", varr [] [])]) "redFlags" (varr [] [])
      = vobj [("recommendations", varr [] []), ("redFlags", varr [] [])] := rfl
  have e2 : ensureListStep "redFlags"
      (setField b "medicalInsights" (vobj [("recommendations", varr [] [])]))
      = setField b "medicalInsights"
        (vobj [("recommendations", varr [] []), ("redFlags", varr [] [])]) := by
    rw [ensureListStep_eq _ _ _ hm1, hcond2, harg2, setField_setField_self]
    simp
  have hm2 : getField (setField b "medicalInsights"
        (vobj [("recommendations", varr [] []), ("redFlags", varr [] [])]))
      "medicalInsights"
      = some (vobj [("recommendations", varr [] []), ("redFlags", varr [] [])]) :=
    getField_setField_self b _ _ hcb
  have hcond3 : isArrayOpt (getField
      (vobj [("recommendations", varr [] []), ("redFlags", varr [] [])])
      "differentialDiagnosis") = false := rfl
  have harg3 : setField (vobj [("recommendations", varr [] []), ("redFlags", varr [] [])])
      "differentialDiagnosis" (varr [] [])
      = vobj [("recommendations", varr [] []), ("redFlags", varr [] []),
              ("differentialDiagnosis", varr [] [])] := rfl
  have e3 : ensureListStep "differentialDiagnosis"
      (setField b "medicalInsights"
        (vobj [("recommendations", varr [] []), ("redFlags", varr [] [])]))
      = setField b "medicalInsights"
        (vobj [("recommendations", varr [] []), ("redFlags", varr [] []),
               ("differentialDiagnosis", varr [] [])]) := by
    rw [ensureListStep_eq _ _ _ hm2, hcond3, harg3, setField_setField_self]
    simp
  have hm3 : getField (setField b "medicalInsights"
        (vobj [("recommendations", varr [] []), ("redFlags", varr [] []),
               ("differentialDiagnosis", varr [] [])]))
      "medicalInsights"
      = some (vobj [("recommendations", varr [] []), ("redFlags", varr [] []),
               ("differentialDiagnosis", varr [] [])]) :=
    getField_setField_self b _ _ hcb
  have hcond4 : truthyOpt (getField
      (vobj [("recommendations", varr [] []), ("redFlags", varr [] []),
             ("differentialDiagnosis", varr [] [])]) "clinicalDecisionSupport") = false := rfl
  have harg4 : setField
      (vobj [("recommendations", varr [] []), ("redFlags", varr [] []),
             ("differentialDiagnosis", varr [] [])])
      "clinicalDecisionSupport" defaultCDS = repairedMiDefault := rfl
  have e4 : ensureCDSStep
      (setField b "medicalInsights"
        (vobj [("recommendations", varr [] []), ("redFlags", varr [] []),
               ("differentialDiagnosis", varr [] [])]))
      = setField b "medicalInsights" repairedMiDefault := by
    rw [ensureCDSStep_eq _ _ hm3, hcond4, harg4, setField_setField_self]
    simp
  unfold ensureSteps
  rw [e1, e2, e3, e4]

theorem sanitizeMiSteps_mi_falsy (b : JSVal) (hcb : isContainer b = true)
    (h : truthyOpt (getField b "medicalInsights") = false) :
    getField (sanitizeMiSteps b) "medicalInsights" = some repairedMiDefault := by
  have hbody : sanitizeMiSteps b = ensureSteps (setField b "medicalInsights" (vobj [])) := by
    unfold sanitizeMiSteps
    simp [h]
  rw [hbody, ensureSteps_fresh _ (by rw [isContainer_setField]; exact hcb)
    (getField_setField_self b _ _ hcb), setField_setField_self]
  exact getField_setField_self b _ _ hcb

theorem sanitize_mi_default (x : JSVal) (hc : isContainer x = true)
    (h : truthyOpt (getField x "medicalInsights") = false) :
    getField (sanitizeAnalysisData x) "medicalInsights" = some repairedMiDefault := by
  rw [sanitizeAnalysisData_eq_core x hc]
  by_cases hq : truthyOpt (getField (flattenPlanStep x) "clinicalSummary") = true
  · have hbody : sanitizeCore x = sanitizeMiSteps (flattenPlanStep x) := by
      unfold sanitizeCore
      simp [hq]
    rw [hbody]
    apply sanitizeMiSteps_mi_falsy _ (by rw [isContainer_flattenPlanStep]; exact hc)
    rw [getField_flattenPlanStep_ne x "medicalInsights" (by decide)]
    exact h
  · have hq' := bfalse hq
    have hbody : sanitizeCore x =
        sanitizeMiSteps (setField (flattenPlanStep x) "clinicalSummary" (vobj [])) := by
      unfold sanitizeCore
      simp [hq']
    rw [hbody]
    apply sanitizeMiSteps_mi_falsy _
      (by rw [isContainer_setField, isContainer_flattenPlanStep]; exact hc)
    rw [getField_setField_ne (flattenPlanStep x) "clinicalSummary" "medicalInsights"
      (vobj []) (by decide)]
    rw [getField_flattenPlanStep_ne x "medicalInsights" (by decide)]
    exact h

theorem flattenPlanValue_of_it (p it : JSVal)
    (hit : getField p "immediateTreatment" = some it) (htit : truthy it = true) :
    flattenPlanValue p = vstr ("Immediate Treatment: " ++ jsToString it ++ "\n"
      ++ "Follow-up Treatment: " ++ orNotSpecified (getField p "followUpTreatment") ++ "\n"
      ++ "Additional Care: " ++ orNotSpecified (getField p "additionalCare")) := by
  unfold flattenPlanValue
  rw [hit]
  simp [htit]

theorem flattenPlanValue_stringify (p : JSVal)
    (hit : truthyOpt (getField p "immediateTreatment") = false) :
    flattenPlanValue p = vstr (jsonStringify p) := by
  unfold flattenPlanValue
  cases hq : getField p "immediateTreatment" with
  | none => rfl
  | some it =>
      rw [hq] at hit
      simp only [truthyOpt] at hit
      simp [hit]

theorem alookup_filter_ne (l : List (String × JSVal)) (k : String) :
    alookup (l.filter (fun p => p.1 ≠ k)) k = none := by
  induction l with
  | nil => rfl
  | cons p rest ih =>
      simp only [ne_eq, decide_not] at ih ⊢
      rw [List.filter_cons]
      by_cases h : p.1 = k
      · simp [h, ih]
      · simp [h, alookup, ih]

theorem string_length_pos_of_ne_empty (s : String) (h : ¬ s = "") :
    s.length > 0 := by
  by_contra hcon
  have h0 : s.length = 0 := Nat.le_zero.mp (Nat.not_lt.mp hcon)
  have hd : s.data.length = 0 := h0
  have hnil : s.data = [] := List.length_eq_zero.mp hd
  apply h
  cases s
  simp_all

theorem keyPointsOfLines_eq (ls : List String) :
    (ls.filter (fun line => line.trim.length > 0)).map
      (fun line => (stripBullet line).trim) = keyPointsOfLines ls := by
  induction ls with
  | nil => rfl
  | cons l rest ih =>
      by_cases h : l.trim = ""
      · have hz : ¬ l.trim.length > 0 := by
          rw [h]
          decide
        simp [List.filter_cons, keyPointsOfLines, h, hz, ih]
      · have hz : l.trim.length > 0 := string_length_pos_of_ne_empty _ h
        simp [List.filter_cons, keyPointsOfLines, h, hz, ih]

/-! ## Claim C1 -/

/-- C1 (counterexample): the claim fails as stated.  On the JSON object whose
clinicalSummary.plan is the object with the recognized sub-field
followUpTreatment and whose medicalInsights is the truthy string oops, the
sanitizer serializes the plan to JSON text instead of the three-line format,
and leaves medicalInsights.recommendations absent rather than a list. -/
theorem C1_sanitizer_counterexample :
    getField2 (sanitizeAnalysisData
        (vobj [("clinicalSummary", vobj [("plan", vobj [("followUpTreatment", vstr "x")])]),
               ("medicalInsights", vstr "oops")]))
      "clinicalSummary" "plan" = some (vstr "\x7b\"followUpTreatment\":\"x\"\x7d") ∧
    getField2 (sanitizeAnalysisData
        (vobj [("clinicalSummary", vobj [("plan", vobj [("followUpTreatment", vstr "x")])]),
               ("medicalInsights", vstr "oops")]))
      "medicalInsights" "recommendations" = none :=
  ⟨rfl, rfl⟩

/-- C1 (amended): for every JSON object passed to the sanitizer, an
object-typed truthy plan is flattened to the three-line string when the
immediateTreatment sub-field specifically is truthy and serialized to its JSON
text otherwise; clinicalSummary and medicalInsights are defaulted when absent
or falsy (the latter then repaired to hold the empty lists and the default
clinicalDecisionSupport); the three medicalInsights list fields are lists in
the result provided medicalInsights is absent, falsy, or itself an object or
array - a truthy primitive medicalInsights defeats the sloppy-mode writes; and
the error path returns the original value unchanged (on null, where the first
property read raises). -/
theorem C1_sanitizeAnalysisData_behavior :
    (∀ x cs p it, isContainer x = true →
        getField x "clinicalSummary" = some cs → truthy cs = true →
        getField cs "plan" = some p → truthy p = true → typeofObject p = true →
        getField p "immediateTreatment" = some it → truthy it = true →
        getField2 (sanitizeAnalysisData x) "clinicalSummary" "plan" =
          some (vstr ("Immediate Treatment: " ++ jsToString it ++ "\n"
            ++ "Follow-up Treatment: " ++ orNotSpecified (getField p "followUpTreatment") ++ "\n"
            ++ "Additional Care: " ++ orNotSpecified (getField p "additionalCare")))) ∧
    (∀ x cs p, isContainer x = true →
        getField x "clinicalSummary" = some cs → truthy cs = true →
        getField cs "plan" = some p → truthy p = true → typeofObject p = true →
        truthyOpt (getField p "immediateTreatment") = false →
        getField2 (sanitizeAnalysisData x) "clinicalSummary" "plan" =
          some (vstr (jsonStringify p))) ∧
    (∀ x, isContainer x = true → truthyOpt (getField x "clinicalSummary") = false →
        getField (sanitizeAnalysisData x) "clinicalSummary" = some (vobj [])) ∧
    (∀ x, isContainer x = true → truthyOpt (getField x "medicalInsights") = false →
        getField (sanitizeAnalysisData x) "medicalInsights" = some repairedMiDefault) ∧
    (∀ x, isContainer x = true → miOkInput x →
        isArrayOpt (getField2 (sanitizeAnalysisData x) "medicalInsights" "recommendations") = true ∧
        isArrayOpt (getField2 (sanitizeAnalysisData x) "medicalInsights" "redFlags") = true ∧
        isArrayOpt (getField2 (sanitizeAnalysisData x) "medicalInsights" "differentialDiagnosis") = true ∧
        truthyOpt (getField2 (sanitizeAnalysisData x) "medicalInsights" "clinicalDecisionSupport") = true) ∧
    sanitizeAnalysisData vnull = vnull := by
  refine ⟨?_, ?_, ?_, ?_, ?_, rfl⟩
  · intro x cs p it hc h1 h2 h3 h4 h5 hit htit
    rw [sanitize_plan x cs p hc h1 h2 h3 h4 h5, flattenPlanValue_of_it p it hit htit]
  · intro x cs p hc h1 h2 h3 h4 h5 himm
    rw [sanitize_plan x cs p hc h1 h2 h3 h4 h5, flattenPlanValue_stringify p himm]
  · intro x hc h
    exact sanitize_cs_default x hc h
  · intro x hc h
    exact sanitize_mi_default x hc h
  · intro x hc hok
    exact sanitize_lists_fields x hc hok

/-- C1 (witness): the amended theorem applied at concrete inputs. -/
theorem C1_sanitizeAnalysisData_behavior_witness :
    getField2 (sanitizeAnalysisData
        (vobj [("clinicalSummary", vobj [("plan", vobj [("immediateTreatment", vstr "A")])])]))
      "clinicalSummary" "plan" =
      some (vstr ("Immediate Treatment: " ++ jsToString (vstr "A") ++ "\n"
        ++ "Follow-up Treatment: "
        ++ orNotSpecified (getField (vobj [("immediateTreatment", vstr "A")]) "followUpTreatment") ++ "\n"
        ++ "Additional Care: "
        ++ orNotSpecified (getField (vobj [("immediateTreatment", vstr "A")]) "additionalCare"))) ∧
    getField2 (sanitizeAnalysisData
        (vobj [("clinicalSummary", vobj [("plan", vobj [("other", vnum 1)])])]))
      "clinicalSummary" "plan" =
      some (vstr (jsonStringify (vobj [("other", vnum 1)]))) ∧
    getField (sanitizeAnalysisData (vobj [])) "clinicalSummary" = some (vobj []) ∧
    getField (sanitizeAnalysisData (vobj [])) "medicalInsights" = some repairedMiDefault ∧
    isArrayOpt (getField2 (sanitizeAnalysisData (vobj [])) "medicalInsights" "recommendations") = true :=
  ⟨C1_sanitizeAnalysisData_behavior.1
      (vobj [("clinicalSummary", vobj [("plan", vobj [("immediateTreatment", vstr "A")])])])
      (vobj [("plan", vobj [("immediateTreatment", vstr "A")])])
      (vobj [("immediateTreatment", vstr "A")]) (vstr "A")
      rfl rfl rfl rfl rfl rfl rfl rfl,
   C1_sanitizeAnalysisData_behavior.2.1
      (vobj [("clinicalSummary", vobj [("plan", vobj [("other", vnum 1)])])])
      (vobj [("plan", vobj [("other", vnum 1)])])
      (vobj [("other", vnum 1)])
      rfl rfl rfl rfl rfl rfl rfl,
   C1_sanitizeAnalysisData_behavior.2.2.1 (vobj []) rfl rfl,
   C1_sanitizeAnalysisData_behavior.2.2.2.1 (vobj []) rfl rfl,
   (C1_sanitizeAnalysisData_behavior.2.2.2.2.1 (vobj []) rfl trivial).1⟩

/-! ## Claim C4 -/

/-- C4 (counterexample): a once-sanitized analysis does not always carry the
three list fields.  Sanitizing the JSON object whose medicalInsights is the
truthy primitive 5 leaves medicalInsights.recommendations absent (not a
list), because the property writes of the source are silent no-ops on a
primitive. -/
theorem C4_sanitize_counterexample :
    isArrayOpt (getField2 (sanitizeAnalysisData (vobj [("medicalInsights", vnum 5)]))
      "medicalInsights" "recommendations") = false ∧
    getField2 (sanitizeAnalysisData (vobj [("medicalInsights", vnum 5)]))
      "medicalInsights" "recommendations" = none :=
  ⟨rfl, rfl⟩

/-- C4 (amended): the sanitizer is idempotent on every value, and a
once-sanitized analysis has medicalInsights.recommendations, redFlags and
differentialDiagnosis as lists provided the incoming medicalInsights was
absent, falsy, or itself an object or array (not a truthy primitive). -/
theorem C4_sanitize_idempotent :
    (∀ x, sanitizeAnalysisData (sanitizeAnalysisData x) = sanitizeAnalysisData x) ∧
    (∀ x, isContainer x = true → miOkInput x →
        isArrayOpt (getField2 (sanitizeAnalysisData x) "medicalInsights" "recommendations") = true ∧
        isArrayOpt (getField2 (sanitizeAnalysisData x) "medicalInsights" "redFlags") = true ∧
        isArrayOpt (getField2 (sanitizeAnalysisData x) "medicalInsights" "differentialDiagnosis") = true) := by
  refine ⟨sanitizeAnalysisData_idem, ?_⟩
  intro x hc hok
  obtain ⟨h1, h2, h3, _⟩ := sanitize_lists_fields x hc hok
  exact ⟨h1, h2, h3⟩

/-- C4 (witness): the amended theorem applied at concrete inputs. -/
theorem C4_sanitize_idempotent_witness :
    sanitizeAnalysisData (sanitizeAnalysisData (vobj [("medicalInsights", vnum 5)]))
      = sanitizeAnalysisData (vobj [("medicalInsights", vnum 5)]) ∧
    isArrayOpt (getField2 (sanitizeAnalysisData (vobj [("medicalInsights", varr [] [])]))
      "medicalInsights" "recommendations") = true :=
  ⟨C4_sanitize_idempotent.1 (vobj [("medicalInsights", vnum 5)]),
   (C4_sanitize_idempotent.2 (vobj [("medicalInsights", varr [] [])]) rfl
      (Or.inr rfl)).1⟩

/-! ## Claim C2 -/

theorem getField_of_not_truthy (a : JSVal) (k : String) (h : truthy a = false) :
    getField a k = none := by
  cases a <;> simp_all [truthy, getField]

/-- C2: calculateConfidenceScore equals 0.70 plus 0.10 for each of the three
conditions of the source that hold, clamped at 0.98; it is always within
[0.70, 0.98], it depends only on the three conditions (so it is deterministic
given the sanitized analysis), and it is monotonic non-decreasing in each
condition. -/
theorem C2_calculateConfidenceScore :
    (∀ a, calculateConfidenceScore a = scoreOfFlags (ddCond a) (rfCond a) (cdsCond a)) ∧
    (∀ a, (7 : ℚ)/10 ≤ calculateConfidenceScore a ∧ calculateConfidenceScore a ≤ 98/100) ∧
    (∀ b2 b3, scoreOfFlags false b2 b3 ≤ scoreOfFlags true b2 b3) ∧
    (∀ b1 b3, scoreOfFlags b1 false b3 ≤ scoreOfFlags b1 true b3) ∧
    (∀ b1 b2, scoreOfFlags b1 b2 false ≤ scoreOfFlags b1 b2 true) := by
  have hdd_eq : ∀ o, ddBonus o = if ddFlag o = true then (1 : ℚ)/10 else 0 := by
    intro o
    cases o with
    | none => rfl
    | some v => cases v <;> simp [ddBonus, ddFlag]
  have hrf_eq : ∀ o, rfBonus o = if rfFlag o = true then (1 : ℚ)/10 else 0 := by
    intro o
    cases o with
    | none => rfl
    | some v => cases v <;> simp [rfBonus, rfFlag]
  have hcds_eq : ∀ o, cdsBonus o = if cdsFlag o = true then (1 : ℚ)/10 else 0 := by
    intro o
    cases o with
    | none => rfl
    | some v => simp [cdsBonus, cdsFlag]
  have hfact : ∀ a, calculateConfidenceScore a
      = scoreOfFlags (ddCond a) (rfCond a) (cdsCond a) := by
    intro a
    by_cases ha : truthy a = true
    · cases hm : getField a "medicalInsights" with
      | none =>
          simp [calculateConfidenceScore, scoreOfFlags, ddCond, rfCond, cdsCond,
            ddFlag, rfFlag, cdsFlag, getField2, ha, hm]
          norm_num
      | some mi =>
          by_cases hmt : truthy mi = true
          · simp [calculateConfidenceScore, scoreOfFlags, ddCond, rfCond, cdsCond,
              getField2, ha, hm, hmt, hdd_eq, hrf_eq, hcds_eq]
          · have hmt' : truthy mi = false := bfalse hmt
            have hnone : ∀ k, getField mi k = none :=
              fun k => getField_of_not_truthy mi k hmt'
            simp [calculateConfidenceScore, scoreOfFlags, ddCond, rfCond, cdsCond,
              ddFlag, rfFlag, cdsFlag, getField2, ha, hm, hmt', hnone]
            norm_num
    · have ha' : truthy a = false := bfalse ha
      have hnone : ∀ k, getField a k = none :=
        fun k => getField_of_not_truthy a k ha'
      simp [calculateConfidenceScore, scoreOfFlags, ddCond, rfCond, cdsCond,
        ddFlag, rfFlag, cdsFlag, getField2, ha', hnone]
      norm_num
  refine ⟨hfact, ?_, ?_, ?_, ?_⟩
  · intro a
    rw [hfact a]
    cases ddCond a <;> cases rfCond a <;> cases cdsCond a <;>
      constructor <;> norm_num [scoreOfFlags]
  · intro b2 b3
    cases b2 <;> cases b3 <;> norm_num [scoreOfFlags]
  · intro b1 b3
    cases b1 <;> cases b3 <;> norm_num [scoreOfFlags]
  · intro b1 b2
    cases b1 <;> cases b2 <;> norm_num [scoreOfFlags]

/-! ## Claim C3 -/

/-- C3: generateFollowUpReminders emits, for every string item of every
well-formed Follow-up recommendation entry, a followup reminder due in 14
days, and for every well-formed Critical red flag an urgent reminder due in 1
day with the templated message; a falsy analysis, a missing or falsy
medicalInsights contribute zero reminders; and in the one-Follow-up-item,
one-Critical-flag scenario exactly two reminders are produced with the urgent
dueDate strictly earlier than the followup dueDate. -/
theorem C3_generateFollowUpReminders :
    (∀ now a mi recs rprops r items iprops s,
        truthy a = true → getField a "medicalInsights" = some mi → truthy mi = true →
        getField mi "recommendations" = some (varr recs rprops) →
        r ∈ recs → truthy r = true →
        getField r "category" = some (vstr "Follow-up") →
        getField r "items" = some (varr items iprops) →
        vstr s ∈ items → s ≠ "" →
        (⟨"followup", s, now + 14 * msPerDay⟩ : Reminder) ∈ generateFollowUpReminders now a) ∧
    (∀ now a mi flags fprops f fl ac,
        truthy a = true → getField a "medicalInsights" = some mi → truthy mi = true →
        getField mi "redFlags" = some (varr flags fprops) →
        f ∈ flags → truthy f = true →
        getField f "status" = some (vstr "Critical") →
        getField f "flag" = some fl → truthy fl = true →
        getField f "action" = some ac → truthy ac = true →
        (⟨"urgent", "Urgent Action: " ++ jsToString fl ++ " - " ++ jsToString ac,
          now + 1 * msPerDay⟩ : Reminder) ∈ generateFollowUpReminders now a) ∧
    (∀ now a, truthy a = false → generateFollowUpReminders now a = []) ∧
    (∀ now a, getField a "medicalInsights" = none → generateFollowUpReminders now a = []) ∧
    (∀ now a mi, getField a "medicalInsights" = some mi → truthy mi = false →
        generateFollowUpReminders now a = []) ∧
    (∀ now a mi r f s fl ac,
        truthy a = true → getField a "medicalInsights" = some mi → truthy mi = true →
        getField mi "recommendations" = some (varr [r] []) →
        truthy r = true → getField r "category" = some (vstr "Follow-up") →
        getField r "items" = some (varr [vstr s] []) → s ≠ "" →
        getField mi "redFlags" = some (varr [f] []) →
        truthy f = true → getField f "status" = some (vstr "Critical") →
        getField f "flag" = some fl → truthy fl = true →
        getField f "action" = some ac → truthy ac = true →
        generateFollowUpReminders now a =
          [⟨"followup", s, now + 14 * msPerDay⟩,
           ⟨"urgent", "Urgent Action: " ++ jsToString fl ++ " - " ++ jsToString ac,
            now + 1 * msPerDay⟩] ∧
        now + 1 * msPerDay < now + 14 * msPerDay) := by
  refine ⟨?_, ?_, ?_, ?_, ?_, ?_⟩
  · intro now a mi recs rprops r items iprops s ha hm hmt hrecs hrmem htr hcat hitems hsmem hs
    have hfu : isFollowupRec r = true := by
      simp [isFollowupRec, htr, hcat, hitems, isArrayOpt, isArray]
    have hmem : (⟨"followup", s, now + 14 * msPerDay⟩ : Reminder) ∈
        ((recs.filter isFollowupRec).map itemsOf).flatten.filterMap (followupOfItem now) := by
      apply List.mem_filterMap.mpr
      refine ⟨vstr s, ?_, ?_⟩
      · apply List.mem_flatten.mpr
        refine ⟨items, ?_, hsmem⟩
        apply List.mem_map.mpr
        refine ⟨r, List.mem_filter.mpr ⟨hrmem, hfu⟩, ?_⟩
        simp [itemsOf, hitems]
      · simp [followupOfItem, hs]
    simp only [generateFollowUpReminders, ha, hm, hmt, hrecs, Bool.not_true,
      Bool.false_eq_true, if_false]
    exact List.mem_append_left _ hmem
  · intro now a mi flags fprops f fl ac ha hm hmt hflags hfmem htf hstatus hfl htfl hac htac
    have hurg : urgentOfFlag now f =
        some ⟨"urgent", "Urgent Action: " ++ jsToString fl ++ " - " ++ jsToString ac,
          now + 1 * msPerDay⟩ := by
      simp [urgentOfFlag, htf, hstatus, hfl, htfl, hac, htac]
    have hmem : (⟨"urgent", "Urgent Action: " ++ jsToString fl ++ " - " ++ jsToString ac,
        now + 1 * msPerDay⟩ : Reminder) ∈ flags.filterMap (urgentOfFlag now) :=
      List.mem_filterMap.mpr ⟨f, hfmem, hurg⟩
    simp only [generateFollowUpReminders, ha, hm, hmt, hflags, Bool.not_true,
      Bool.false_eq_true, if_false]
    exact List.mem_append_right _ hmem
  · intro now a h
    simp [generateFollowUpReminders, h]
  · intro now a h
    by_cases ht : truthy a = true
    · simp [generateFollowUpReminders, ht, h]
    · simp [generateFollowUpReminders, bfalse ht]
  · intro now a mi hm hmt
    by_cases ht : truthy a = true
    · simp [generateFollowUpReminders, ht, hm, hmt]
    · simp [generateFollowUpReminders, bfalse ht]
  · intro now a mi r f s fl ac ha hm hmt hrecs htr hcat hitems hs hflags htf hstatus hfl htfl hac htac
    constructor
    · have hfu : isFollowupRec r = true := by
        simp [isFollowupRec, htr, hcat, hitems, isArrayOpt, isArray]
      simp [generateFollowUpReminders, ha, hm, hmt, hrecs, hflags, hfu,
        itemsOf, hitems, followupOfItem, hs, urgentOfFlag, htf, hstatus, hfl,
        htfl, hac, htac]
    · norm_num [msPerDay]

/-- C3 (witness): the theorem applied in the one-Follow-up-item,
one-Critical-flag scenario at a concrete analysis. -/
theorem C3_generateFollowUpReminders_witness :
    generateFollowUpReminders 0
      (vobj [("medicalInsights", vobj
        [("recommendations", varr [vobj [("category", vstr "Follow-up"),
            ("items", varr [vstr "see doctor"] [])]] []),
         ("redFlags", varr [vobj [("status", vstr "Critical"),
            ("flag", vstr "F"), ("action", vstr "A")]] [])])]) =
      [⟨"followup", "see doctor", 0 + 14 * msPerDay⟩,
       ⟨"urgent", "Urgent Action: " ++ jsToString (vstr "F") ++ " - " ++ jsToString (vstr "A"),
        0 + 1 * msPerDay⟩] ∧
    0 + 1 * msPerDay < 0 + 14 * msPerDay :=
  C3_generateFollowUpReminders.2.2.2.2.2 0
    (vobj [("medicalInsights", vobj
      [("recommendations", varr [vobj [("category", vstr "Follow-up"),
          ("items", varr [vstr "see doctor"] [])]] []),
       ("redFlags", varr [vobj [("status", vstr "Critical"),
          ("flag", vstr "F"), ("action", vstr "A")]] [])])])
    (vobj [("recommendations", varr [vobj [("category", vstr "Follow-up"),
        ("items", varr [vstr "see doctor"] [])]] []),
     ("redFlags", varr [vobj [("status", vstr "Critical"),
        ("flag", vstr "F"), ("action", vstr "A")]] [])])
    (vobj [("category", vstr "Follow-up"), ("items", varr [vstr "see doctor"] [])])
    (vobj [("status", vstr "Critical"), ("flag", vstr "F"), ("action", vstr "A")])
    "see doctor" (vstr "F") (vstr "A")
    rfl rfl rfl rfl rfl rfl rfl (by decide) rfl rfl rfl rfl rfl rfl rfl

/-! ## Claim C5 -/

/-- C5: when the clinical-analysis gateway call fails, or succeeds with
content that is not a truthy object, the stage substitutes the documented
fallback object, whose clinicalSummary text fields carry the
unable-to-extract marker (vitals Not recorded, riskFactors empty) and whose
medicalInsights lists are all empty; the request still returns a response
built around the fallback and, when the save succeeds, persists a record
carrying the fallback content. -/
theorem C5_analysis_fallback :
    (∀ msg, clinicalAnalysisStage (Except.error msg) = fallbackAnalysis) ∧
    (∀ v, (truthy v && typeofObject v) = false →
        clinicalAnalysisStage (Except.ok v) = fallbackAnalysis) ∧
    (getField2 fallbackAnalysis "clinicalSummary" "chiefComplaint"
        = some (vstr "Unable to extract - AI analysis failed") ∧
     getField2 fallbackAnalysis "clinicalSummary" "historyOfPresentIllness"
        = some (vstr "Unable to extract - AI analysis failed") ∧
     getField2 fallbackAnalysis "clinicalSummary" "assessment"
        = some (vstr "Unable to extract - AI analysis failed") ∧
     getField2 fallbackAnalysis "clinicalSummary" "plan"
        = some (vstr "Unable to extract - AI analysis failed") ∧
     getField2 fallbackAnalysis "clinicalSummary" "vitals" = some (vstr "Not recorded") ∧
     getField2 fallbackAnalysis "clinicalSummary" "riskFactors" = some (varr [] []) ∧
     getField2 fallbackAnalysis "medicalInsights" "differentialDiagnosis" = some (varr [] []) ∧
     getField2 fallbackAnalysis "medicalInsights" "redFlags" = some (varr [] []) ∧
     getField2 fallbackAnalysis "medicalInsights" "recommendations" = some (varr [] [])) ∧
    (∀ store t dia kp genId now msg, ¬ t = "" →
        ∃ resp d, analyzeRoute store t dia (Except.error msg) kp true genId now
            = Except.ok (resp, store ++ [d]) ∧
          resp.body = fallbackAnalysis ∧ resp.warning = none ∧
          d.clinicalSummary = getField fallbackAnalysis "clinicalSummary" ∧
          d.medicalInsights = getField fallbackAnalysis "medicalInsights") ∧
    (∀ store t dia kp genId now msg, ¬ t = "" →
        ∃ resp, analyzeRoute store t dia (Except.error msg) kp false genId now
            = Except.ok (resp, store) ∧ resp.body = fallbackAnalysis) := by
  refine ⟨fun msg => rfl, ?_, ⟨rfl, rfl, rfl, rfl, rfl, rfl, rfl, rfl, rfl⟩, ?_, ?_⟩
  · intro v h
    simp [clinicalAnalysisStage, h]
  · intro store t dia kp genId now msg ht
    refine ⟨⟨genId, diarizeTranscript t dia, fallbackAnalysis, keyPointsStage kp,
        generateFollowUpReminders now fallbackAnalysis,
        calculateConfidenceScore fallbackAnalysis, none⟩,
      ⟨genId, diarizeTranscript t dia, getField fallbackAnalysis "clinicalSummary",
        getField fallbackAnalysis "medicalInsights", keyPointsStage kp,
        generateFollowUpReminders now fallbackAnalysis,
        calculateConfidenceScore fallbackAnalysis⟩,
      ?_, rfl, rfl, rfl, rfl⟩
    simp [analyzeRoute, ht, runPipeline, clinicalAnalysisStage]
  · intro store t dia kp genId now msg ht
    refine ⟨⟨"TEMP-" ++ toString now, diarizeTranscript t dia, fallbackAnalysis,
        keyPointsStage kp, generateFollowUpReminders now fallbackAnalysis,
        calculateConfidenceScore fallbackAnalysis, some dbWarning⟩, ?_, rfl⟩
    simp [analyzeRoute, ht, runPipeline, clinicalAnalysisStage]

/-- C5 (witness): the theorem applied at concrete pipeline inputs. -/
theorem C5_analysis_fallback_witness :
    clinicalAnalysisStage (Except.ok (vstr "not an object")) = fallbackAnalysis ∧
    (∃ resp d, analyzeRoute [] "hi" (Except.error "dia") (Except.error "boom")
        (Except.error "kp") true "CONS-1" 5 = Except.ok (resp, [] ++ [d]) ∧
      resp.body = fallbackAnalysis ∧ resp.warning = none ∧
      d.clinicalSummary = getField fallbackAnalysis "clinicalSummary" ∧
      d.medicalInsights = getField fallbackAnalysis "medicalInsights") ∧
    (∃ resp, analyzeRoute [] "hi" (Except.error "dia") (Except.error "boom")
        (Except.error "kp") false "CONS-1" 5 = Except.ok (resp, []) ∧
      resp.body = fallbackAnalysis) :=
  ⟨C5_analysis_fallback.2.1 (vstr "not an object") rfl,
   C5_analysis_fallback.2.2.2.1 [] "hi" (Except.error "dia") (Except.error "kp")
     "CONS-1" 5 "boom" (by decide),
   C5_analysis_fallback.2.2.2.2 [] "hi" (Except.error "dia") (Except.error "kp")
     "CONS-1" 5 "boom" (by decide)⟩

/-! ## Claim C6 -/

/-- C6: when the diarization gateway call fails, the stage returns the
original unlabeled transcript unchanged, and the pipeline continues with it:
the route answers success (no exception surfaces), the response transcript
equals the original input and so does the transcript of the persisted
record. -/
theorem C6_diarization_fallback :
    (∀ t e, diarizeTranscript t (Except.error e) = t) ∧
    (∀ store t e analyze kp genId now, ¬ t = "" →
        ∃ resp d, analyzeRoute store t (Except.error e) analyze kp true genId now
            = Except.ok (resp, store ++ [d]) ∧ resp.transcript = t ∧ d.transcript = t) ∧
    (∀ store t e analyze kp genId now, ¬ t = "" →
        ∃ resp, analyzeRoute store t (Except.error e) analyze kp false genId now
            = Except.ok (resp, store) ∧ resp.transcript = t) := by
  refine ⟨fun t e => rfl, ?_, ?_⟩
  · intro store t e analyze kp genId now ht
    refine ⟨⟨genId, t, clinicalAnalysisStage analyze, keyPointsStage kp,
        generateFollowUpReminders now (clinicalAnalysisStage analyze),
        calculateConfidenceScore (clinicalAnalysisStage analyze), none⟩,
      ⟨genId, t, getField (clinicalAnalysisStage analyze) "clinicalSummary",
        getField (clinicalAnalysisStage analyze) "medicalInsights", keyPointsStage kp,
        generateFollowUpReminders now (clinicalAnalysisStage analyze),
        calculateConfidenceScore (clinicalAnalysisStage analyze)⟩,
      ?_, rfl, rfl⟩
    simp [analyzeRoute, ht, runPipeline, diarizeTranscript]
  · intro store t e analyze kp genId now ht
    refine ⟨⟨"TEMP-" ++ toString now, t, clinicalAnalysisStage analyze, keyPointsStage kp,
        generateFollowUpReminders now (clinicalAnalysisStage analyze),
        calculateConfidenceScore (clinicalAnalysisStage analyze), some dbWarning⟩, ?_, rfl⟩
    simp [analyzeRoute, ht, runPipeline, diarizeTranscript]

/-- C6 (witness): the theorem applied at concrete pipeline inputs. -/
theorem C6_diarization_fallback_witness :
    diarizeTranscript "raw words" (Except.error "gw") = "raw words" ∧
    (∃ resp d, analyzeRoute [] "raw words" (Except.error "gw") (Except.error "an")
        (Except.error "kp") true "CONS-2" 7 = Except.ok (resp, [] ++ [d]) ∧
      resp.transcript = "raw words" ∧ d.transcript = "raw words") ∧
    (∃ resp, analyzeRoute [] "raw words" (Except.error "gw") (Except.error "an")
        (Except.error "kp") false "CONS-2" 7 = Except.ok (resp, []) ∧
      resp.transcript = "raw words") :=
  ⟨C6_diarization_fallback.1 "raw words" "gw",
   C6_diarization_fallback.2.1 [] "raw words" "gw" (Except.error "an")
     (Except.error "kp") "CONS-2" 7 (by decide),
   C6_diarization_fallback.2.2 [] "raw words" "gw" (Except.error "an")
     (Except.error "kp") "CONS-2" 7 (by decide)⟩

/-! ## Claim C10 -/

/-- C10: when persisting a completed pipeline run fails, the response carries
the warning marker together with a consultationId of the form
TEMP-timestamp, the store is returned unchanged, and looking the temporary id
up in the store yields the not-found outcome whenever no stored record
carries that id. -/
theorem C10_persistence_failure :
    ∀ store t dia analyze kp genId now, ¬ t = "" →
      ∃ resp, analyzeRoute store t dia analyze kp false genId now
          = Except.ok (resp, store) ∧
        resp.warning = some dbWarning ∧
        resp.consultationId = "TEMP-" ++ toString now ∧
        ((∀ d ∈ store, ¬ d.consultationId = "TEMP-" ++ toString now) →
          getById store ("TEMP-" ++ toString now) = none) := by
  intro store t dia analyze kp genId now ht
  refine ⟨⟨"TEMP-" ++ toString now, diarizeTranscript t dia, clinicalAnalysisStage analyze,
      keyPointsStage kp, generateFollowUpReminders now (clinicalAnalysisStage analyze),
      calculateConfidenceScore (clinicalAnalysisStage analyze), some dbWarning⟩,
    ?_, rfl, rfl, ?_⟩
  · simp [analyzeRoute, ht, runPipeline]
  · intro hall
    unfold getById
    rw [List.find?_eq_none]
    intro d hd
    simpa using hall d hd

/-- C10 (witness): the theorem applied at a concrete store and pipeline
inputs. -/
theorem C10_persistence_failure_witness :
    ∃ resp, analyzeRoute [⟨"CONS-9", "old", none, none, [], [], 7/10⟩] "hi"
        (Except.error "d") (Except.error "a") (Except.error "k") false "CONS-3" 42
        = Except.ok (resp, [⟨"CONS-9", "old", none, none, [], [], 7/10⟩]) ∧
      resp.warning = some dbWarning ∧
      resp.consultationId = "TEMP-" ++ toString 42 ∧
      ((∀ d ∈ [(⟨"CONS-9", "old", none, none, [], [], 7/10⟩ : ConsultationDoc)],
          ¬ d.consultationId = "TEMP-" ++ toString 42) →
        getById [⟨"CONS-9", "old", none, none, [], [], 7/10⟩] ("TEMP-" ++ toString 42) = none) :=
  C10_persistence_failure [⟨"CONS-9", "old", none, none, [], [], 7/10⟩] "hi"
    (Except.error "d") (Except.error "a") (Except.error "k") "CONS-3" 42 (by decide)

/-! ## Claim C7 -/

/-- C7: key-point post-processing splits the model output on line breaks,
drops the lines that are blank after trimming, and cleans each kept line by
stripping one leading bullet marker with the whitespace after it and trimming
(stated as the equivalent single-pass walk keyPointsOfLines); on a gateway
failure the stage returns the single-element manual-review marker list. -/
theorem C7_keyPointsStage :
    (∀ e, keyPointsStage (Except.error e) = [keyPointsFailureMarker]) ∧
    (∀ t, keyPointsStage (Except.ok t) = keyPointsOfLines (t.splitOn "\n")) ∧
    stripBullet "- a" = "a" ∧ stripBullet "•  b" = "b" ∧ stripBullet "*c" = "c" ∧
    stripBullet "d" = "d" := by
  refine ⟨fun e => rfl, ?_, ?_, ?_, ?_, ?_⟩
  · intro t
    show ((t.splitOn "\n").filter (fun line => line.trim.length > 0)).map
        (fun line => (stripBullet line).trim) = keyPointsOfLines (t.splitOn "\n")
    exact keyPointsOfLines_eq (t.splitOn "\n")
  all_goals simp [stripBullet]

/-! ## Claim C8 -/

/-- C8: over 25 matching records, requesting page 2 with page size 10 returns
exactly 10 records, a page count of 3 and a total-record count of 25 under
1-based page semantics, and every returned record has its transcript field
removed. -/
theorem C8_list_pagination :
    ∀ docs : List (List (String × JSVal)), docs.length = 25 →
      (listConsultations docs 2 10).1.length = 10 ∧
      (listConsultations docs 2 10).2.total = 3 ∧
      (listConsultations docs 2 10).2.totalRecords = 25 ∧
      (listConsultations docs 2 10).2.current = 2 ∧
      ∀ d ∈ (listConsultations docs 2 10).1, alookup d "transcript" = none := by
  intro docs h
  refine ⟨?_, ?_, ?_, rfl, ?_⟩
  · simp [listConsultations, h]
  · simp [listConsultations, h]
  · simp [listConsultations, h]
  · intro d hd
    simp only [listConsultations] at hd
    obtain ⟨d0, _, rfl⟩ := List.mem_map.mp hd
    exact alookup_filter_ne d0 "transcript"

/-- C8 (witness): the theorem applied to a concrete store of 25 records, each
carrying a transcript field. -/
theorem C8_list_pagination_witness :
    (List.replicate 25 [("transcript", vstr "t")]).length = 25 ∧
    ((listConsultations (List.replicate 25 [("transcript", vstr "t")]) 2 10).1.length = 10 ∧
     (listConsultations (List.replicate 25 [("transcript", vstr "t")]) 2 10).2.total = 3 ∧
     (listConsultations (List.replicate 25 [("transcript", vstr "t")]) 2 10).2.totalRecords = 25 ∧
     (listConsultations (List.replicate 25 [("transcript", vstr "t")]) 2 10).2.current = 2 ∧
     ∀ d ∈ (listConsultations (List.replicate 25 [("transcript", vstr "t")]) 2 10).1,
       alookup d "transcript" = none) :=
  ⟨by simp, C8_list_pagination (List.replicate 25 [("transcript", vstr "t")]) (by simp)⟩

/-! ## Claim C9 -/

/-- C9 (counterexample): the per-day series does not respect the supplied
date range.  With a single record created at day 40 and an endDate filter
that excludes it, the filtered total is 0 yet the daily trend still reports
one consultation on day 40; an empty store under the same filter yields an
empty trend, so the series depends on records outside the range. -/
theorem C9_stats_counterexample :
    (aggregateStats [⟨40 * msPerDay, (9 : ℚ)/10, some "p"⟩] none
        (some (40 * msPerDay - 1)) (40 * msPerDay)).totalConsultations = 0 ∧
    (aggregateStats [⟨40 * msPerDay, (9 : ℚ)/10, some "p"⟩] none
        (some (40 * msPerDay - 1)) (40 * msPerDay)).dailyTrend = [(40, 1)] ∧
    (aggregateStats [] none (some (40 * msPerDay - 1)) (40 * msPerDay)).dailyTrend = [] :=
  ⟨by decide, by decide, rfl⟩

/-- C9 (amended): the aggregate total, the distinct-patient count and the
average confidence score are computed over the date-filtered records, while
the per-day series always covers the most recent 30 days regardless of the
supplied range: it is invariant under the date filter, its bucket counts sum
to the number of records in the 30-day window, and its buckets are sorted by
day. -/
theorem C9_aggregateStats :
    (∀ records s e now, (aggregateStats records s e now).totalConsultations =
        (records.filter (fun r => inDateRange s e r.createdAt)).length) ∧
    (∀ records s e now, (aggregateStats records s e now).uniquePatients =
        ((records.filter (fun r => inDateRange s e r.createdAt)).filterMap
          (fun r => r.patientId)).dedup.length) ∧
    (∀ records s1 e1 s2 e2 now, (aggregateStats records s1 e1 now).dailyTrend
        = (aggregateStats records s2 e2 now).dailyTrend) ∧
    (∀ records s e now, ((aggregateStats records s e now).dailyTrend.map Prod.snd).sum
        = (records.filter (fun r => now - 30 * msPerDay ≤ r.createdAt)).length) ∧
    (∀ records s e now, List.Sorted (fun d1 d2 => d1 ≤ d2)
        ((aggregateStats records s e now).dailyTrend.map Prod.fst)) ∧
    (∀ records s e now, (aggregateStats records s e now).avgConfidenceScore
        * ((records.filter (fun r => inDateRange s e r.createdAt)).length : ℚ)
        = ((records.filter (fun r => inDateRange s e r.createdAt)).map
            (fun r => r.confidenceScore)).sum ∨
      ((records.filter (fun r => inDateRange s e r.createdAt)) = [] ∧
        (aggregateStats records s e now).avgConfidenceScore = 0)) := by
  refine ⟨fun records s e now => rfl, fun records s e now => rfl,
    fun records s1 e1 s2 e2 now => rfl, ?_, ?_, ?_⟩
  · intro records s e now
    simp only [aggregateStats]
    set days := (records.filter (fun r => now - 30 * msPerDay ≤ r.createdAt)).map
      (fun r => r.createdAt / msPerDay) with hdays
    rw [List.map_map]
    have hcomp : (Prod.snd ∘ fun d => (d, days.count d)) = fun d => days.count d := rfl
    rw [hcomp]
    rw [((List.perm_insertionSort (· ≤ ·) days.dedup).map (fun d => days.count d)).sum_eq]
    rw [List.sum_map_count_dedup_eq_length days]
    rw [hdays, List.length_map]
  · intro records s e now
    simp only [aggregateStats]
    set days := (records.filter (fun r => now - 30 * msPerDay ≤ r.createdAt)).map
      (fun r => r.createdAt / msPerDay) with hdays
    rw [List.map_map]
    have hcomp : (Prod.fst ∘ fun d => (d, days.count d)) = id := rfl
    rw [hcomp, List.map_id]
    exact List.sorted_insertionSort _ _
  · intro records s e now
    simp only [aggregateStats]
    set matched := records.filter (fun r => inDateRange s e r.createdAt) with hmatched
    by_cases hz : matched.length = 0
    · right
      refine ⟨List.length_eq_zero.mp hz, ?_⟩
      simp [hz]
    · left
      rw [if_neg hz]
      exact div_mul_cancel₀ _ (Nat.cast_ne_zero.mpr hz)

end Ninisina
